import Mathlib

/-! Multi-source catalog resolver.

A shallow embedding of `pkg/controller/registry/resolver/querier.go`.

* The Go map `map[CatalogKey]client.Interface` is a list of `(key, source)` pairs. The list
  order is the order in which one `range` statement visits the map, so a statement about every
  list is a statement about every mapping and every iteration order. A Go map holds a key at
  most once, which is the predicate `KeysNodup`.
* A remote call is a pure function of its arguments. Every operation returns, next to its Go
  result triple, the list of the remote calls it issued, in the order it issued them.
* A Go `error` is compared by identity. A value built by `fmt.Errorf` in this file is a fresh
  value (`Error.errorf`), an error handed back by a source is `Error.remote`.
* The `context.Context` argument of the remote calls is not modelled.
-/

namespace Resolver

/-- The identifier of a catalog source, `CatalogKey` in the Go code. -/
structure CatalogKey where
  Name : String
  Namespace : String
deriving DecidableEq, Repr

/-- The capability key `opregistry.APIKey`. -/
structure APIKey where
  Group : String
  Version : String
  Kind : String
  Plural : String
deriving DecidableEq, Repr

/-- An error value produced by a catalog source; the resolver never looks inside it. -/
structure ClientError where
  msg : String
deriving DecidableEq, Repr

/-- A Go `error` as seen by the caller of the resolver: either built here by `fmt.Errorf`, or
the error of a remote call handed on unchanged. -/
inductive Error where
  | errorf (msg : String)
  | remote (e : ClientError)
deriving DecidableEq, Repr

/-- The result pair `(*opregistry.Bundle, error)` of a remote call; `none` is `nil`. -/
structure Reply (B : Type) where
  bundle : Option B
  err : Option ClientError
deriving DecidableEq, Repr

/-- The four remote operations of `client.Interface` that the resolver uses. -/
structure Source (B : Type) where
  GetBundle : String → String → String → Reply B
  GetBundleInPackageChannel : String → String → Reply B
  GetReplacementBundleInPackageChannel : String → String → String → Reply B
  GetBundleThatProvides : String → String → String → Reply B

/-- A remote call with its arguments. -/
inductive Request where
  | GetBundle (packageName channelName csvName : String)
  | GetBundleInPackageChannel (packageName channelName : String)
  | GetReplacementBundleInPackageChannel (currentName packageName channelName : String)
  | GetBundleThatProvides (group version kind : String)
deriving DecidableEq, Repr

/-- One issued remote call: the key under which the called source is registered, and the
request sent to it. -/
structure Call where
  target : CatalogKey
  request : Request
deriving DecidableEq, Repr

/-- A value together with the remote calls issued while computing it. -/
abbrev Traced (α : Type) : Type := α × List Call

/-- The answer of a source to a request. -/
def Source.answer {B : Type} (source : Source B) : Request → Reply B
  | .GetBundle p c n => source.GetBundle p c n
  | .GetBundleInPackageChannel p c => source.GetBundleInPackageChannel p c
  | .GetReplacementBundleInPackageChannel n p c =>
      source.GetReplacementBundleInPackageChannel n p c
  | .GetBundleThatProvides g v k => source.GetBundleThatProvides g v k

/-- Issue one remote call to the source registered under `key` and record it. -/
def issue {B : Type} (key : CatalogKey) (source : Source B) (req : Request) :
    Traced (Reply B) :=
  (source.answer req, [⟨key, req⟩])

/-- The result triple `(*opregistry.Bundle, *CatalogKey, error)` of a lookup. -/
structure Outcome (B : Type) where
  bundle : Option B
  key : Option CatalogKey
  err : Option Error
deriving DecidableEq, Repr

/-- The resolver: `sources` lists the entries of the Go map in iteration order. -/
structure NamespaceSourceQuerier (B : Type) where
  sources : List (CatalogKey × Source B)

/-- The keys of a mapping are pairwise different, as in every Go map. -/
def KeysNodup {B : Type} (sources : List (CatalogKey × Source B)) : Prop :=
  (sources.map Prod.fst).Nodup

/-- The map index expression `sources[key]` with its `ok` flag (`none` is `ok == false`). -/
def index {B : Type} : List (CatalogKey × Source B) → CatalogKey → Option (Source B)
  | [], _ => none
  | (k, source) :: rest, key => if k = key then some source else index rest key

/-- The statement `for key, source := range sources { body }`: `body` yields `some out` when it
executes `return out` and `none` when it falls through to the next iteration. -/
def rangeSources {B : Type} (body : CatalogKey → Source B → Traced (Option (Outcome B))) :
    List (CatalogKey × Source B) → Traced (Option (Outcome B))
  | [] => (none, [])
  | (key, source) :: rest =>
    match body key source with
    | (some out, log) => (some out, log)
    | (none, log) => ((rangeSources body rest).1, log ++ (rangeSources body rest).2)

/-- The method `Queryable`. -/
def Queryable {B : Type} (q : NamespaceSourceQuerier B) : Traced (Option Error) :=
  if q.sources.length = 0 then
    (some (.errorf "no catalog sources available"), [])
  else
    (none, [])

/-- The method `FindProvider`; `apiString` is the `%s` rendering of an `opregistry.APIKey`. -/
def FindProvider {B : Type} (apiString : APIKey → String) (q : NamespaceSourceQuerier B)
    (api : APIKey) : Traced (Outcome B) :=
  match rangeSources (fun key source =>
      match issue key source (.GetBundleThatProvides api.Group api.Version api.Kind) with
      | (⟨bundle, none⟩, log) => (some ⟨bundle, some key, none⟩, log)
      | (⟨_, some _⟩, log) =>
        match issue key source
            (.GetBundleThatProvides (api.Plural ++ "." ++ api.Group) api.Version api.Kind) with
        | (⟨bundle, none⟩, log2) => (some ⟨bundle, some key, none⟩, log ++ log2)
        | (⟨_, some _⟩, log2) => (none, log ++ log2)) q.sources with
  | (some out, log) => (out, log)
  | (none, log) =>
    (⟨none, none,
      some (.errorf (apiString api ++ " not provided by a package in any CatalogSource"))⟩, log)

/-- The method `FindPackage`; `keyString` is the `%s` rendering of a `CatalogKey`. -/
def FindPackage {B : Type} (keyString : CatalogKey → String) (q : NamespaceSourceQuerier B)
    (pkgName channelName csvName : String) (initialSource : CatalogKey) : Traced (Outcome B) :=
  if initialSource.Name ≠ "" ∧ initialSource.Namespace ≠ "" then
    match index q.sources initialSource with
    | none =>
      (⟨none, none,
        some (.errorf ("CatalogSource " ++ keyString initialSource ++ " not found"))⟩, [])
    | some source =>
      match (if csvName ≠ "" then
          issue initialSource source (.GetBundle pkgName channelName csvName)
        else
          issue initialSource source (.GetBundleInPackageChannel pkgName channelName)) with
      | (⟨_, some err⟩, log) => (⟨none, none, some (.remote err)⟩, log)
      | (⟨bundle, none⟩, log) => (⟨bundle, some initialSource, none⟩, log)
  else
    match rangeSources (fun key source =>
        match (if csvName ≠ "" then
            issue key source (.GetBundle pkgName channelName csvName)
          else
            issue key source (.GetBundleInPackageChannel pkgName channelName)) with
        | (⟨bundle, none⟩, log) => (some ⟨bundle, some key, none⟩, log)
        | (⟨_, some _⟩, log) => (none, log)) q.sources with
    | (some out, log) => (out, log)
    | (none, log) =>
      (⟨none, none, some (.errorf
        (pkgName ++ "/" ++ channelName ++ " not found in any available CatalogSource"))⟩, log)

/-- The method `FindBundle`. -/
def FindBundle {B : Type} (keyString : CatalogKey → String) (q : NamespaceSourceQuerier B)
    (pkgName channelName bundleName : String) (initialSource : CatalogKey) :
    Traced (Outcome B) :=
  if initialSource.Name ≠ "" ∧ initialSource.Namespace ≠ "" then
    match index q.sources initialSource with
    | none =>
      (⟨none, none,
        some (.errorf ("CatalogSource " ++ keyString initialSource ++ " not found"))⟩, [])
    | some source =>
      match issue initialSource source (.GetBundle pkgName channelName bundleName) with
      | (⟨_, some err⟩, log) => (⟨none, none, some (.remote err)⟩, log)
      | (⟨bundle, none⟩, log) => (⟨bundle, some initialSource, none⟩, log)
  else
    match rangeSources (fun key source =>
        match issue key source (.GetBundle pkgName channelName bundleName) with
        | (⟨bundle, none⟩, log) => (some ⟨bundle, some key, none⟩, log)
        | (⟨_, some _⟩, log) => (none, log)) q.sources with
    | (some out, log) => (out, log)
    | (none, log) =>
      (⟨none, none, some (.errorf (pkgName ++ "/" ++ channelName ++ "/" ++ bundleName ++
        " not found in any available CatalogSource"))⟩, log)

/-- The method `FindLatestBundle`. -/
def FindLatestBundle {B : Type} (keyString : CatalogKey → String)
    (q : NamespaceSourceQuerier B) (pkgName channelName : String)
    (initialSource : CatalogKey) : Traced (Outcome B) :=
  if initialSource.Name ≠ "" ∧ initialSource.Namespace ≠ "" then
    match index q.sources initialSource with
    | none =>
      (⟨none, none,
        some (.errorf ("CatalogSource " ++ keyString initialSource ++ " not found"))⟩, [])
    | some source =>
      match issue initialSource source (.GetBundleInPackageChannel pkgName channelName) with
      | (⟨_, some err⟩, log) => (⟨none, none, some (.remote err)⟩, log)
      | (⟨bundle, none⟩, log) => (⟨bundle, some initialSource, none⟩, log)
  else
    match rangeSources (fun key source =>
        match issue key source (.GetBundleInPackageChannel pkgName channelName) with
        | (⟨bundle, none⟩, log) => (some ⟨bundle, some key, none⟩, log)
        | (⟨_, some _⟩, log) => (none, log)) q.sources with
    | (some out, log) => (out, log)
    | (none, log) =>
      (⟨none, none, some (.errorf
        (pkgName ++ "/" ++ channelName ++ " not found in any available CatalogSource"))⟩, log)

/-- The method `FindReplacement`. -/
def FindReplacement {B : Type} (q : NamespaceSourceQuerier B)
    (bundleName pkgName channelName : String) (initialSource : CatalogKey) :
    Traced (Outcome B) :=
  if initialSource.Name ≠ "" ∧ initialSource.Namespace ≠ "" then
    match index q.sources initialSource with
    | none =>
      (⟨none, none,
        some (.errorf ("CatalogSource " ++ initialSource.Name ++ " not found"))⟩, [])
    | some source =>
      match issue initialSource source
          (.GetReplacementBundleInPackageChannel bundleName pkgName channelName) with
      | (⟨_, some err⟩, log) => (⟨none, none, some (.remote err)⟩, log)
      | (⟨bundle, none⟩, log) => (⟨bundle, some initialSource, none⟩, log)
  else
    match rangeSources (fun key source =>
        match issue key source
            (.GetReplacementBundleInPackageChannel bundleName pkgName channelName) with
        | (⟨bundle, none⟩, log) => (some ⟨bundle, some key, none⟩, log)
        | (⟨_, some _⟩, log) => (none, log)) q.sources with
    | (some out, log) => (out, log)
    | (none, log) =>
      (⟨none, none, some (.errorf
        (pkgName ++ "/" ++ channelName ++ " not found in any available CatalogSource"))⟩, log)

/-! ## Sample sources -/

/-- A client error standing for "no such entry". -/
def missing : ClientError := ⟨"not found"⟩

/-- A client error standing for "connection refused". -/
def unreachable : ClientError := ⟨"rpc error: connection refused"⟩

/-- A source that answers every call with `unreachable`. -/
def downSource : Source String where
  GetBundle _ _ _ := ⟨none, some unreachable⟩
  GetBundleInPackageChannel _ _ := ⟨none, some unreachable⟩
  GetReplacementBundleInPackageChannel _ _ _ := ⟨none, some unreachable⟩
  GetBundleThatProvides _ _ _ := ⟨none, some unreachable⟩

/-- A source holding package `etcd`, channel `alpha`, with the bundles `etcd.v1` and its
successor `etcd.v2`; `etcd.v2` provides `etcd.database.coreos.com/v1beta2 EtcdCluster`. -/
def etcdSource : Source String where
  GetBundle p c n :=
    if p = "etcd" ∧ c = "alpha" ∧ (n = "etcd.v1" ∨ n = "etcd.v2") then ⟨some n, none⟩
    else ⟨none, some missing⟩
  GetBundleInPackageChannel p c :=
    if p = "etcd" ∧ c = "alpha" then ⟨some "etcd.v2", none⟩ else ⟨none, some missing⟩
  GetReplacementBundleInPackageChannel n p c :=
    if n = "etcd.v1" ∧ p = "etcd" ∧ c = "alpha" then ⟨some "etcd.v2", none⟩
    else ⟨none, some missing⟩
  GetBundleThatProvides g v k :=
    if g = "etcd.database.coreos.com" ∧ v = "v1beta2" ∧ k = "EtcdCluster" then
      ⟨some "etcd.v2", none⟩
    else ⟨none, some missing⟩

/-- A source that knows its provided API only under the `Plural + "." + Group` name. -/
def pluralSource : Source String where
  GetBundle _ _ _ := ⟨none, some missing⟩
  GetBundleInPackageChannel _ _ := ⟨none, some missing⟩
  GetReplacementBundleInPackageChannel _ _ _ := ⟨none, some missing⟩
  GetBundleThatProvides g v k :=
    if g = "etcdclusters.etcd.database.coreos.com" ∧ v = "v1beta2" ∧ k = "EtcdCluster" then
      ⟨some "etcd.plural", none⟩
    else ⟨none, some missing⟩

/-- The `%s` rendering `Name/Namespace` of a catalog key, used in the examples. -/
def slashKey (k : CatalogKey) : String := k.Name ++ "/" ++ k.Namespace

/-- The `%s` rendering `Group/Version/Kind (Plural)` of an API key, used in the examples. -/
def slashAPI (a : APIKey) : String :=
  a.Group ++ "/" ++ a.Version ++ "/" ++ a.Kind ++ " (" ++ a.Plural ++ ")"

/-- The catalog key `A`. -/
def keyA : CatalogKey := ⟨"A", "ns"⟩

/-- The catalog key `B`. -/
def keyB : CatalogKey := ⟨"B", "ns"⟩

/-- The API key of the etcd cluster resource. -/
def etcdAPI : APIKey := ⟨"etcd.database.coreos.com", "v1beta2", "EtcdCluster", "etcdclusters"⟩

/-- The mapping `{A: etcdSource, B: downSource}`, visited `A` first. -/
def twoSources : List (CatalogKey × Source String) := [(keyA, etcdSource), (keyB, downSource)]

/-- The mapping `{A: etcdSource, B: downSource}`, visited `B` first. -/
def twoSourcesSwapped : List (CatalogKey × Source String) :=
  [(keyB, downSource), (keyA, etcdSource)]

/-- The catalog key `C`. -/
def keyC : CatalogKey := ⟨"C", "ns"⟩

/-- The mapping `{B: downSource, A: etcdSource, C: etcdSource}`, visited in that order. -/
def threeSources : List (CatalogKey × Source String) :=
  [(keyB, downSource), (keyA, etcdSource), (keyC, etcdSource)]

/-- The zero value `CatalogKey{}`: no source requested. -/
def CatalogKey.zero : CatalogKey := ⟨"", ""⟩

/-- The calls of a fan-out that visits the sources `l` with one request. -/
def callsTo {B : Type} (req : Request) (l : List (CatalogKey × Source B)) : List Call :=
  l.map (fun e => ⟨e.1, req⟩)

/-! ## Properties stated about a lookup -/

/-- The success criterion of a fan-out over `sources`, where `ask` is the remote query of the
operation and `notFound` the message of its final error: the lookup succeeds exactly when some
registered source answers without error; with no such source (so with no source at all) it
returns no bundle, no key and the error built from `notFound`; and it never hands on the error
of a source. -/
def FanOutCriterion {B : Type} (result : Traced (Outcome B))
    (sources : List (CatalogKey × Source B)) (ask : Source B → Reply B) (notFound : String) :
    Prop :=
  (result.1.err = none ↔ ∃ e ∈ sources, (ask e.2).err = none) ∧
  ((∀ e ∈ sources, (ask e.2).err ≠ none) →
    result.1 = ⟨none, none, some (.errorf notFound)⟩) ∧
  (sources = [] → result.1 = ⟨none, none, some (.errorf notFound)⟩) ∧
  (∀ ce : ClientError, result.1.err ≠ some (.remote ce))

/-- The source registered under `k` is the one and only source of the mapping that answers the
query `ask` without error. -/
def AnswersOnlyAt {B : Type} (sources : List (CatalogKey × Source B)) (k : CatalogKey)
    (ask : Source B → Reply B) : Prop :=
  ∀ e ∈ sources, ((ask e.2).err = none ↔ e.1 = k)

/-- The result of a targeted lookup hands on the reply of the one source it asked: its error
unchanged and nothing else, or its bundle with the key `src` of that source. -/
def HandsOn {B : Type} (result : Traced (Outcome B)) (reply : Reply B) (src : CatalogKey) :
    Prop :=
  (∀ e : ClientError, reply.err = some e → result.1 = ⟨none, none, some (.remote e)⟩) ∧
  (reply.err = none → result.1 = ⟨reply.bundle, some src, none⟩)

/-- A successful result is backed by the mapping: its key is registered, and the source
registered under it answers the query `ask` without error and with the bundle of the result. -/
def Sound {B : Type} (result : Traced (Outcome B)) (sources : List (CatalogKey × Source B))
    (ask : Source B → Reply B) : Prop :=
  result.1.err = none →
    ∃ k s, result.1.key = some k ∧ index sources k = some s ∧
      (ask s).err = none ∧ (ask s).bundle = result.1.bundle

/-- The text `part` occurs in the message `msg`. -/
def Mentions (msg part : String) : Prop := part.data <:+: msg.data

instance (msg part : String) : Decidable (Mentions msg part) := by
  unfold Mentions; infer_instance

/-- The first request `FindProvider` sends to a source: the `(Group, Version, Kind)` form. -/
def groupRequest (api : APIKey) : Request :=
  .GetBundleThatProvides api.Group api.Version api.Kind

/-- The second request `FindProvider` sends to a source: the `Plural + "." + Group` form. -/
def pluralRequest (api : APIKey) : Request :=
  .GetBundleThatProvides (api.Plural ++ "." ++ api.Group) api.Version api.Kind

/-- The calls of a `FindProvider` loop that visits the sources `l` with both requests. -/
def providerCalls {B : Type} (api : APIKey) (l : List (CatalogKey × Source B)) : List Call :=
  l.flatMap (fun e => [⟨e.1, groupRequest api⟩, ⟨e.1, pluralRequest api⟩])

/-- An API key that no sample source provides. -/
def otherAPI : APIKey := ⟨"example.com", "v1", "Widget", "widgets"⟩

/-- The result names the bundle `bundle` and the key `k` of the source that stands between
the sources `pre` and `post` in iteration order; every source of `pre` has been called, and
no source of `post` has. -/
def EarliestWins {B : Type} (result : Traced (Outcome B)) (pre : List (CatalogKey × Source B))
    (k : CatalogKey) (post : List (CatalogKey × Source B)) (bundle : Option B) : Prop :=
  result.1 = ⟨bundle, some k, none⟩ ∧
  (∀ e ∈ pre, ∃ call ∈ result.2, call.target = e.1) ∧
  (∀ e ∈ post, ∀ call ∈ result.2, call.target ≠ e.1)

/-! ## The shape shared by the lookups -/

/-- The loop body shared by the single-request lookups: issue `req`, return on `err == nil`. -/
def probe {B : Type} (req : Request) (key : CatalogKey) (source : Source B) :
    Traced (Option (Outcome B)) :=
  match issue key source req with
  | (⟨bundle, none⟩, log) => (some ⟨bundle, some key, none⟩, log)
  | (⟨_, some _⟩, log) => (none, log)

/-- The fan-out half of a single-request lookup, with the message of its final error. -/
def fanOut {B : Type} (req : Request) (notFound : String)
    (sources : List (CatalogKey × Source B)) : Traced (Outcome B) :=
  match rangeSources (probe req) sources with
  | (some out, log) => (out, log)
  | (none, log) => (⟨none, none, some (.errorf notFound)⟩, log)

/-- The targeted half of a single-request lookup, with the message of its registration error. -/
def targeted {B : Type} (req : Request) (notRegistered : String)
    (sources : List (CatalogKey × Source B)) (initialSource : CatalogKey) :
    Traced (Outcome B) :=
  match index sources initialSource with
  | none => (⟨none, none, some (.errorf notRegistered)⟩, [])
  | some source =>
    match issue initialSource source req with
    | (⟨_, some err⟩, log) => (⟨none, none, some (.remote err)⟩, log)
    | (⟨bundle, none⟩, log) => (⟨bundle, some initialSource, none⟩, log)

/-- The loop body of `FindProvider`: the `Group` form first, then the `Plural.Group` form. -/
def provide {B : Type} (api : APIKey) (key : CatalogKey) (source : Source B) :
    Traced (Option (Outcome B)) :=
  match issue key source (.GetBundleThatProvides api.Group api.Version api.Kind) with
  | (⟨bundle, none⟩, log) => (some ⟨bundle, some key, none⟩, log)
  | (⟨_, some _⟩, log) =>
    match issue key source
        (.GetBundleThatProvides (api.Plural ++ "." ++ api.Group) api.Version api.Kind) with
    | (⟨bundle, none⟩, log2) => (some ⟨bundle, some key, none⟩, log ++ log2)
    | (⟨_, some _⟩, log2) => (none, log ++ log2)

/-- The reply of a source to the `(Group, Version, Kind)` form of a capability. -/
def groupReply {B : Type} (api : APIKey) (source : Source B) : Reply B :=
  source.GetBundleThatProvides api.Group api.Version api.Kind

/-- The reply of a source to the `(Plural + "." + Group, Version, Kind)` form. -/
def pluralReply {B : Type} (api : APIKey) (source : Source B) : Reply B :=
  source.GetBundleThatProvides (api.Plural ++ "." ++ api.Group) api.Version api.Kind

/-- The request `FindPackage` sends: exact lookup with a release name, latest without. -/
def packageRequest (pkgName channelName csvName : String) : Request :=
  if csvName ≠ "" then .GetBundle pkgName channelName csvName
  else .GetBundleInPackageChannel pkgName channelName

/-- The guard `initialSource.Name != "" && initialSource.Namespace != ""`. -/
def Targets (initialSource : CatalogKey) : Prop :=
  initialSource.Name ≠ "" ∧ initialSource.Namespace ≠ ""

instance (k : CatalogKey) : Decidable (Targets k) := by
  unfold Targets; infer_instance

theorem FindBundle_eq {B : Type} (keyString : CatalogKey → String)
    (q : NamespaceSourceQuerier B) (p c n : String) (src : CatalogKey) :
    FindBundle keyString q p c n src =
      if Targets src then
        targeted (.GetBundle p c n) ("CatalogSource " ++ keyString src ++ " not found")
          q.sources src
      else
        fanOut (.GetBundle p c n)
          (p ++ "/" ++ c ++ "/" ++ n ++ " not found in any available CatalogSource") q.sources :=
  rfl

theorem FindLatestBundle_eq {B : Type} (keyString : CatalogKey → String)
    (q : NamespaceSourceQuerier B) (p c : String) (src : CatalogKey) :
    FindLatestBundle keyString q p c src =
      if Targets src then
        targeted (.GetBundleInPackageChannel p c)
          ("CatalogSource " ++ keyString src ++ " not found") q.sources src
      else
        fanOut (.GetBundleInPackageChannel p c)
          (p ++ "/" ++ c ++ " not found in any available CatalogSource") q.sources :=
  rfl

theorem FindReplacement_eq {B : Type} (q : NamespaceSourceQuerier B) (n p c : String)
    (src : CatalogKey) :
    FindReplacement q n p c src =
      if Targets src then
        targeted (.GetReplacementBundleInPackageChannel n p c)
          ("CatalogSource " ++ src.Name ++ " not found") q.sources src
      else
        fanOut (.GetReplacementBundleInPackageChannel n p c)
          (p ++ "/" ++ c ++ " not found in any available CatalogSource") q.sources :=
  rfl

theorem FindPackage_eq {B : Type} (keyString : CatalogKey → String)
    (q : NamespaceSourceQuerier B) (p c n : String) (src : CatalogKey) :
    FindPackage keyString q p c n src =
      if Targets src then
        targeted (packageRequest p c n) ("CatalogSource " ++ keyString src ++ " not found")
          q.sources src
      else
        fanOut (packageRequest p c n)
          (p ++ "/" ++ c ++ " not found in any available CatalogSource") q.sources := by
  by_cases h : n = ""
  · subst h
    rfl
  · simp only [FindPackage, packageRequest, ne_eq, h, not_false_eq_true, if_true]
    rfl

/-! ## The loop -/

theorem rangeSources_cons_none {B : Type}
    (body : CatalogKey → Source B → Traced (Option (Outcome B)))
    (k : CatalogKey) (s : Source B) (rest : List (CatalogKey × Source B))
    (h : (body k s).1 = none) :
    rangeSources body ((k, s) :: rest) =
      ((rangeSources body rest).1, (body k s).2 ++ (rangeSources body rest).2) := by
  rcases hb : body k s with ⟨r, log⟩
  rw [hb] at h
  simp only at h
  subst h
  simp only [rangeSources, hb]

theorem rangeSources_cons_some {B : Type}
    (body : CatalogKey → Source B → Traced (Option (Outcome B)))
    (k : CatalogKey) (s : Source B) (rest : List (CatalogKey × Source B)) (out : Outcome B)
    (h : (body k s).1 = some out) :
    rangeSources body ((k, s) :: rest) = (some out, (body k s).2) := by
  rcases hb : body k s with ⟨r, log⟩
  rw [hb] at h
  simp only at h
  subst h
  simp only [rangeSources, hb]

/-- When no iteration returns, the loop falls through, having run every iteration. -/
theorem rangeSources_exhausted {B : Type}
    (body : CatalogKey → Source B → Traced (Option (Outcome B)))
    (l : List (CatalogKey × Source B)) (h : ∀ e ∈ l, (body e.1 e.2).1 = none) :
    rangeSources body l = (none, l.flatMap (fun e => (body e.1 e.2).2)) := by
  induction l with
  | nil => rfl
  | cons e rest ih =>
    obtain ⟨k, s⟩ := e
    have hk : (body k s).1 = none := h (k, s) (List.mem_cons_self _ _)
    have hrest := ih (fun e he => h e (List.mem_cons_of_mem _ he))
    rw [rangeSources_cons_none body k s rest hk, hrest]
    simp

/-- The loop returns from the first iteration that returns, having run the ones before it. -/
theorem rangeSources_first {B : Type}
    (body : CatalogKey → Source B → Traced (Option (Outcome B)))
    (pre post : List (CatalogKey × Source B)) (k : CatalogKey) (s : Source B)
    (out : Outcome B) (hpre : ∀ e ∈ pre, (body e.1 e.2).1 = none)
    (hk : (body k s).1 = some out) :
    rangeSources body (pre ++ (k, s) :: post) =
      (some out, pre.flatMap (fun e => (body e.1 e.2).2) ++ (body k s).2) := by
  induction pre with
  | nil => simpa using rangeSources_cons_some body k s post out hk
  | cons e rest ih =>
    obtain ⟨k', s'⟩ := e
    have hk' : (body k' s').1 = none := hpre (k', s') (List.mem_cons_self _ _)
    have hrest := ih (fun e he => hpre e (List.mem_cons_of_mem _ he))
    rw [List.cons_append, rangeSources_cons_none body k' s' _ hk', hrest]
    simp

/-- Every list either has no returning iteration or splits at its first returning one. -/
theorem split_first {B : Type}
    (body : CatalogKey → Source B → Traced (Option (Outcome B)))
    (l : List (CatalogKey × Source B)) :
    (∀ e ∈ l, (body e.1 e.2).1 = none) ∨
      ∃ pre k s post out, l = pre ++ (k, s) :: post ∧
        (∀ e ∈ pre, (body e.1 e.2).1 = none) ∧ (body k s).1 = some out := by
  induction l with
  | nil => left; simp
  | cons e rest ih =>
    obtain ⟨k, s⟩ := e
    cases hb : (body k s).1 with
    | some out => exact Or.inr ⟨[], k, s, rest, out, rfl, by simp, hb⟩
    | none =>
      rcases ih with hall | ⟨pre, k', s', post, out, hl, hpre, hk'⟩
      · left
        intro e he
        rcases List.mem_cons.1 he with rfl | he
        · exact hb
        · exact hall e he
      · right
        refine ⟨(k, s) :: pre, k', s', post, out, by simp [hl], ?_, hk'⟩
        intro e he
        rcases List.mem_cons.1 he with rfl | he
        · exact hb
        · exact hpre e he

/-! ## The map index -/

theorem index_of_mem {B : Type} (l : List (CatalogKey × Source B)) (hl : KeysNodup l)
    (k : CatalogKey) (s : Source B) (h : (k, s) ∈ l) : index l k = some s := by
  induction l with
  | nil => simp at h
  | cons e rest ih =>
    obtain ⟨k', s'⟩ := e
    simp only [KeysNodup, List.map_cons, List.nodup_cons, List.mem_map, not_exists,
      not_and] at hl
    rcases List.mem_cons.1 h with heq | hmem
    · cases heq
      simp [index]
    · have hne : k' ≠ k := fun hkk => hl.1 (k, s) hmem hkk.symm
      simp only [index, hne, if_false]
      exact ih hl.2 hmem

theorem mem_of_index {B : Type} (l : List (CatalogKey × Source B)) (k : CatalogKey)
    (s : Source B) (h : index l k = some s) : (k, s) ∈ l := by
  induction l with
  | nil => simp [index] at h
  | cons e rest ih =>
    obtain ⟨k', s'⟩ := e
    by_cases hk : k' = k
    · simp only [index, hk, if_true, Option.some.injEq] at h
      simp [hk, h]
    · simp only [index, hk, if_false] at h
      exact List.mem_cons_of_mem _ (ih h)

theorem index_eq_none_iff {B : Type} (l : List (CatalogKey × Source B)) (k : CatalogKey) :
    index l k = none ↔ ∀ e ∈ l, e.1 ≠ k := by
  induction l with
  | nil => simp [index]
  | cons e rest ih =>
    obtain ⟨k', s'⟩ := e
    by_cases hk : k' = k
    · simp [index, hk]
    · simp [index, hk, ih]

theorem index_perm {B : Type} (l l' : List (CatalogKey × Source B)) (hl : KeysNodup l)
    (hp : l'.Perm l) (k : CatalogKey) : index l' k = index l k := by
  have hl' : KeysNodup l' := (List.Perm.nodup_iff (hp.map Prod.fst)).2 hl
  cases h : index l k with
  | none =>
    rw [index_eq_none_iff] at h ⊢
    exact fun e he => h e (hp.mem_iff.1 he)
  | some s => exact index_of_mem l' hl' k s (hp.mem_iff.2 (mem_of_index l k s h))

/-! ## One request -/

theorem probe_of_answer {B : Type} (req : Request) (k : CatalogKey) (s : Source B)
    (h : (s.answer req).err = none) :
    probe req k s = (some ⟨(s.answer req).bundle, some k, none⟩, [⟨k, req⟩]) := by
  rcases hr : s.answer req with ⟨b, e⟩
  rw [hr] at h
  simp only at h
  subst h
  simp only [probe, issue, hr]

theorem probe_of_error {B : Type} (req : Request) (k : CatalogKey) (s : Source B)
    (h : (s.answer req).err ≠ none) : probe req k s = (none, [⟨k, req⟩]) := by
  rcases hr : s.answer req with ⟨b, e⟩
  rw [hr] at h
  cases e with
  | none => exact absurd rfl h
  | some e => simp only [probe, issue, hr]

theorem probe_fst_eq_none_iff {B : Type} (req : Request) (k : CatalogKey) (s : Source B) :
    (probe req k s).1 = none ↔ (s.answer req).err ≠ none := by
  by_cases h : (s.answer req).err = none
  · simp [probe_of_answer req k s h, h]
  · simp [probe_of_error req k s h, h]

theorem probe_snd {B : Type} (req : Request) (k : CatalogKey) (s : Source B) :
    (probe req k s).2 = [⟨k, req⟩] := by
  by_cases h : (s.answer req).err = none
  · simp [probe_of_answer req k s h]
  · simp [probe_of_error req k s h]

theorem flatMap_probe_snd {B : Type} (req : Request) (l : List (CatalogKey × Source B)) :
    l.flatMap (fun e => (probe req e.1 e.2).2) = callsTo req l := by
  induction l with
  | nil => rfl
  | cons e rest ih => simp [callsTo, probe_snd] at ih ⊢; exact ih

/-- Fan-out with no answering source: the aggregate error, after one call to each source. -/
theorem fanOut_exhausted {B : Type} (req : Request) (msg : String)
    (l : List (CatalogKey × Source B)) (h : ∀ e ∈ l, (e.2.answer req).err ≠ none) :
    fanOut req msg l = (⟨none, none, some (.errorf msg)⟩, callsTo req l) := by
  have hb : ∀ e ∈ l, (probe req e.1 e.2).1 = none :=
    fun e he => (probe_fst_eq_none_iff req e.1 e.2).2 (h e he)
  simp only [fanOut, rangeSources_exhausted (probe req) l hb, flatMap_probe_snd]

/-- Fan-out returns the answer of the first answering source in iteration order. -/
theorem fanOut_first {B : Type} (req : Request) (msg : String)
    (pre post : List (CatalogKey × Source B)) (k : CatalogKey) (s : Source B)
    (hpre : ∀ e ∈ pre, (e.2.answer req).err ≠ none) (hk : (s.answer req).err = none) :
    fanOut req msg (pre ++ (k, s) :: post) =
      (⟨(s.answer req).bundle, some k, none⟩, callsTo req (pre ++ [(k, s)])) := by
  have hb : ∀ e ∈ pre, (probe req e.1 e.2).1 = none :=
    fun e he => (probe_fst_eq_none_iff req e.1 e.2).2 (hpre e he)
  have hs : (probe req k s).1 = some ⟨(s.answer req).bundle, some k, none⟩ := by
    rw [probe_of_answer req k s hk]
  rw [fanOut, rangeSources_first (probe req) pre post k s _ hb hs, flatMap_probe_snd,
    probe_snd]
  simp [callsTo]

/-- Every mapping either has no answering source or splits at its first answering one. -/
theorem split_first_answer {B : Type} (req : Request) (l : List (CatalogKey × Source B)) :
    (∀ e ∈ l, (e.2.answer req).err ≠ none) ∨
      ∃ pre k s post, l = pre ++ (k, s) :: post ∧
        (∀ e ∈ pre, (e.2.answer req).err ≠ none) ∧ (s.answer req).err = none := by
  rcases split_first (probe req) l with h | ⟨pre, k, s, post, out, hl, hpre, hk⟩
  · exact Or.inl fun e he => (probe_fst_eq_none_iff req e.1 e.2).1 (h e he)
  · refine Or.inr ⟨pre, k, s, post, hl,
      fun e he => (probe_fst_eq_none_iff req e.1 e.2).1 (hpre e he), ?_⟩
    by_contra hne
    rw [probe_of_error req k s hne] at hk
    simp at hk

theorem answer_packageRequest {B : Type} (s : Source B) (p c n : String) :
    s.answer (packageRequest p c n) =
      if n ≠ "" then s.GetBundle p c n else s.GetBundleInPackageChannel p c := by
  unfold packageRequest
  split <;> rfl

theorem fanOut_criterion {B : Type} (req : Request) (msg : String)
    (l : List (CatalogKey × Source B)) :
    FanOutCriterion (fanOut req msg l) l (fun s => s.answer req) msg := by
  rcases split_first_answer req l with hall | ⟨pre, k, s, post, hl, hpre, hk⟩
  · have hres := fanOut_exhausted req msg l hall
    refine ⟨?_, fun _ => by rw [hres], fun _ => by rw [hres], ?_⟩
    · rw [hres]
      constructor
      · intro h
        simp at h
      · rintro ⟨e, he, hans⟩
        exact absurd hans (hall e he)
    · intro ce
      rw [hres]
      simp
  · have hres := fanOut_first req msg pre post k s hpre hk
    rw [← hl] at hres
    refine ⟨?_, ?_, ?_, ?_⟩
    · rw [hres]
      exact ⟨fun _ => ⟨(k, s), by simp [hl], hk⟩, fun _ => rfl⟩
    · intro hall
      exact absurd hk (hall (k, s) (by simp [hl]))
    · intro hnil
      simp [hnil] at hl
    · intro ce
      rw [hres]
      simp

theorem fanOut_only_answerer {B : Type} (req : Request) (msg : String)
    (m order : List (CatalogKey × Source B)) (hperm : order.Perm m) (hnodup : KeysNodup m)
    (k : CatalogKey) (s : Source B) (hmem : (k, s) ∈ m)
    (h : AnswersOnlyAt m k (fun x => x.answer req)) :
    (fanOut req msg order).1 = ⟨(s.answer req).bundle, some k, none⟩ := by
  have hs : (s.answer req).err = none := (h (k, s) hmem).2 rfl
  rcases split_first_answer req order with hall | ⟨pre, k', s', post, hl, hpre, hk'⟩
  · exact absurd hs (hall (k, s) (hperm.mem_iff.2 hmem))
  · have hmem' : (k', s') ∈ m := hperm.mem_iff.1 (by simp [hl])
    have hkk : k' = k := (h (k', s') hmem').1 hk'
    subst hkk
    have hss : s' = s := by
      have h1 := index_of_mem m hnodup k' s' hmem'
      have h2 := index_of_mem m hnodup k' s hmem
      rw [h1] at h2
      exact Option.some.inj h2
    subst hss
    rw [hl, fanOut_first req msg pre post k' s' hpre hk']

/-! ## Fan-out -/

/-- C1. Called with the zero catalog key, each of `FindPackage`, `FindBundle`,
`FindLatestBundle` and `FindReplacement` succeeds exactly when some registered source answers
its remote query without error, for every mapping in every iteration order; when no source
does, and so when the mapping is empty, it returns no bundle, no key and its own not-found
error built by `fmt.Errorf`; the error of a source is never returned. -/
theorem fanOut_success_criterion {B : Type} (keyString : CatalogKey → String)
    (q : NamespaceSourceQuerier B) (p c n : String) :
    FanOutCriterion (FindPackage keyString q p c n CatalogKey.zero) q.sources
        (fun s => if n ≠ "" then s.GetBundle p c n else s.GetBundleInPackageChannel p c)
        (p ++ "/" ++ c ++ " not found in any available CatalogSource") ∧
      FanOutCriterion (FindBundle keyString q p c n CatalogKey.zero) q.sources
        (fun s => s.GetBundle p c n)
        (p ++ "/" ++ c ++ "/" ++ n ++ " not found in any available CatalogSource") ∧
      FanOutCriterion (FindLatestBundle keyString q p c CatalogKey.zero) q.sources
        (fun s => s.GetBundleInPackageChannel p c)
        (p ++ "/" ++ c ++ " not found in any available CatalogSource") ∧
      FanOutCriterion (FindReplacement q n p c CatalogKey.zero) q.sources
        (fun s => s.GetReplacementBundleInPackageChannel n p c)
        (p ++ "/" ++ c ++ " not found in any available CatalogSource") := by
  have hz : ¬ Targets CatalogKey.zero := by simp [Targets, CatalogKey.zero]
  refine ⟨?_, ?_, ?_, ?_⟩
  · rw [FindPackage_eq, if_neg hz]
    have h := fanOut_criterion (packageRequest p c n)
      (p ++ "/" ++ c ++ " not found in any available CatalogSource") q.sources
    simp only [answer_packageRequest] at h
    exact h
  · rw [FindBundle_eq, if_neg hz]
    exact fanOut_criterion _ _ _
  · rw [FindLatestBundle_eq, if_neg hz]
    exact fanOut_criterion _ _ _
  · rw [FindReplacement_eq, if_neg hz]
    exact fanOut_criterion _ _ _

/-- C2. Let `m` be a mapping in which the source registered under `k` is the only one that
answers the remote query of the operation without error. Then, whatever the order `order` in
which the mapping is visited, each of `FindBundle`, `FindLatestBundle`, `FindReplacement` and
`FindPackage` called with the zero catalog key returns exactly the bundle that source
returned, paired with the key `k`, and no error. -/
theorem fanOut_only_answerer_wins {B : Type} (keyString : CatalogKey → String)
    (m order : List (CatalogKey × Source B)) (hperm : order.Perm m) (hnodup : KeysNodup m)
    (k : CatalogKey) (s : Source B) (hmem : (k, s) ∈ m) (p c n : String) :
    (AnswersOnlyAt m k (fun x => x.GetBundle p c n) →
        (FindBundle keyString ⟨order⟩ p c n CatalogKey.zero).1 =
          ⟨(s.GetBundle p c n).bundle, some k, none⟩) ∧
      (AnswersOnlyAt m k (fun x => x.GetBundleInPackageChannel p c) →
        (FindLatestBundle keyString ⟨order⟩ p c CatalogKey.zero).1 =
          ⟨(s.GetBundleInPackageChannel p c).bundle, some k, none⟩) ∧
      (AnswersOnlyAt m k (fun x => x.GetReplacementBundleInPackageChannel n p c) →
        (FindReplacement ⟨order⟩ n p c CatalogKey.zero).1 =
          ⟨(s.GetReplacementBundleInPackageChannel n p c).bundle, some k, none⟩) ∧
      (AnswersOnlyAt m k
          (fun x => if n ≠ "" then x.GetBundle p c n else x.GetBundleInPackageChannel p c) →
        (FindPackage keyString ⟨order⟩ p c n CatalogKey.zero).1 =
          ⟨(if n ≠ "" then s.GetBundle p c n else s.GetBundleInPackageChannel p c).bundle,
            some k, none⟩) := by
  have hz : ¬ Targets CatalogKey.zero := by simp [Targets, CatalogKey.zero]
  refine ⟨fun h => ?_, fun h => ?_, fun h => ?_, fun h => ?_⟩
  · rw [FindBundle_eq, if_neg hz]
    exact fanOut_only_answerer _ _ m order hperm hnodup k s hmem h
  · rw [FindLatestBundle_eq, if_neg hz]
    exact fanOut_only_answerer _ _ m order hperm hnodup k s hmem h
  · rw [FindReplacement_eq, if_neg hz]
    exact fanOut_only_answerer _ _ m order hperm hnodup k s hmem h
  · rw [FindPackage_eq, if_neg hz, ← answer_packageRequest]
    refine fanOut_only_answerer _ _ m order hperm hnodup k s hmem ?_
    intro e he
    show (e.2.answer (packageRequest p c n)).err = none ↔ e.1 = k
    rw [answer_packageRequest]
    exact h e he

/-- C2, witness: in the mapping `{A: etcdSource, B: downSource}` only `A` answers the queries
for `etcd/alpha`; visited with `B` first, every lookup returns the bundle of `A` with key `A`.
The single-source mapping `{A: etcdSource}` gives `(etcd.v1, A)` for `FindBundle`. -/
theorem fanOut_only_answerer_wins_witness :
    (KeysNodup twoSources ∧
      AnswersOnlyAt twoSources keyA (fun x => x.GetBundle "etcd" "alpha" "etcd.v1") ∧
      AnswersOnlyAt twoSources keyA (fun x => x.GetBundleInPackageChannel "etcd" "alpha") ∧
      AnswersOnlyAt twoSources keyA
        (fun x => x.GetReplacementBundleInPackageChannel "etcd.v1" "etcd" "alpha")) ∧
    ((FindBundle slashKey ⟨twoSourcesSwapped⟩ "etcd" "alpha" "etcd.v1" CatalogKey.zero).1 =
        ⟨some "etcd.v1", some keyA, none⟩ ∧
      (FindLatestBundle slashKey ⟨twoSourcesSwapped⟩ "etcd" "alpha" CatalogKey.zero).1 =
        ⟨some "etcd.v2", some keyA, none⟩ ∧
      (FindReplacement ⟨twoSourcesSwapped⟩ "etcd.v1" "etcd" "alpha" CatalogKey.zero).1 =
        ⟨some "etcd.v2", some keyA, none⟩ ∧
      (FindPackage slashKey ⟨twoSourcesSwapped⟩ "etcd" "alpha" "etcd.v1" CatalogKey.zero).1 =
        ⟨some "etcd.v1", some keyA, none⟩) ∧
    (FindBundle slashKey ⟨[(keyA, etcdSource)]⟩ "etcd" "alpha" "etcd.v1" CatalogKey.zero).1 =
      ⟨some "etcd.v1", some keyA, none⟩ := by
  have hn : KeysNodup twoSources := by unfold KeysNodup twoSources; decide
  have h1 : AnswersOnlyAt twoSources keyA (fun x => x.GetBundle "etcd" "alpha" "etcd.v1") := by
    intro e he
    simp only [twoSources, List.mem_cons, List.mem_singleton, List.not_mem_nil, or_false] at he
    rcases he with rfl | rfl <;> decide
  have h2 : AnswersOnlyAt twoSources keyA
      (fun x => x.GetBundleInPackageChannel "etcd" "alpha") := by
    intro e he
    simp only [twoSources, List.mem_cons, List.mem_singleton, List.not_mem_nil, or_false] at he
    rcases he with rfl | rfl <;> decide
  have h3 : AnswersOnlyAt twoSources keyA
      (fun x => x.GetReplacementBundleInPackageChannel "etcd.v1" "etcd" "alpha") := by
    intro e he
    simp only [twoSources, List.mem_cons, List.mem_singleton, List.not_mem_nil, or_false] at he
    rcases he with rfl | rfl <;> decide
  have h4 : AnswersOnlyAt twoSources keyA (fun x =>
      if "etcd.v1" ≠ "" then x.GetBundle "etcd" "alpha" "etcd.v1"
      else x.GetBundleInPackageChannel "etcd" "alpha") := by
    intro e he
    simp only [twoSources, List.mem_cons, List.mem_singleton, List.not_mem_nil, or_false] at he
    rcases he with rfl | rfl <;> decide
  have hone : AnswersOnlyAt [(keyA, etcdSource)] keyA
      (fun x => x.GetBundle "etcd" "alpha" "etcd.v1") := by
    intro e he
    simp only [List.mem_singleton] at he
    subst he
    decide
  have h := fanOut_only_answerer_wins slashKey twoSources twoSourcesSwapped
    (List.Perm.swap _ _ _) hn keyA etcdSource (by simp [twoSources]) "etcd" "alpha" "etcd.v1"
  exact ⟨⟨hn, h1, h2, h3⟩, ⟨h.1 h1, h.2.1 h2, h.2.2.1 h3, h.2.2.2 h4⟩,
    (fanOut_only_answerer_wins slashKey [(keyA, etcdSource)] [(keyA, etcdSource)]
      (List.Perm.refl _) (by unfold KeysNodup; decide) keyA etcdSource (by simp)
      "etcd" "alpha" "etcd.v1").1 hone⟩

/-! ## Targeted mode -/

theorem targeted_absent {B : Type} (req : Request) (msg : String)
    (l : List (CatalogKey × Source B)) (src : CatalogKey) (h : ∀ e ∈ l, e.1 ≠ src) :
    targeted req msg l src = (⟨none, none, some (.errorf msg)⟩, []) := by
  simp only [targeted, (index_eq_none_iff l src).2 h]

theorem targeted_calls {B : Type} (req : Request) (msg : String)
    (l : List (CatalogKey × Source B)) (src : CatalogKey) (s : Source B)
    (h : index l src = some s) : (targeted req msg l src).2 = [⟨src, req⟩] := by
  rcases hr : s.answer req with ⟨b, e⟩
  cases e <;> simp only [targeted, h, issue, hr]

theorem targeted_handsOn {B : Type} (req : Request) (msg : String)
    (l : List (CatalogKey × Source B)) (src : CatalogKey) (s : Source B)
    (h : index l src = some s) : HandsOn (targeted req msg l src) (s.answer req) src := by
  rcases hr : s.answer req with ⟨b, e⟩
  cases e with
  | none =>
    refine ⟨fun e he => by simp at he, fun _ => ?_⟩
    simp only [targeted, h, issue, hr]
  | some e =>
    refine ⟨fun e' he => ?_, fun he => by simp at he⟩
    simp only [Option.some.injEq] at he
    subst he
    simp only [targeted, h, issue, hr]

theorem targeted_congr {B : Type} (req : Request) (msg : String)
    (l l' : List (CatalogKey × Source B)) (src : CatalogKey) (s : Source B)
    (h : index l src = some s) (h' : index l' src = some s) :
    targeted req msg l src = targeted req msg l' src := by
  simp only [targeted, h, h']

/-- C3, as amended. A preferred source whose `Name` and `Namespace` are both non-empty and
which is not a key of the mapping makes each of `FindPackage`, `FindBundle`,
`FindLatestBundle` and `FindReplacement` fail with its not-registered error, with no bundle
and no key, and without any remote call, whatever the registered sources would answer. -/
theorem targeted_unregistered {B : Type} (keyString : CatalogKey → String)
    (q : NamespaceSourceQuerier B) (p c n : String) (src : CatalogKey)
    (hname : src.Name ≠ "") (hns : src.Namespace ≠ "") (habs : ∀ e ∈ q.sources, e.1 ≠ src) :
    FindPackage keyString q p c n src =
        (⟨none, none, some (.errorf ("CatalogSource " ++ keyString src ++ " not found"))⟩, []) ∧
      FindBundle keyString q p c n src =
        (⟨none, none, some (.errorf ("CatalogSource " ++ keyString src ++ " not found"))⟩, []) ∧
      FindLatestBundle keyString q p c src =
        (⟨none, none, some (.errorf ("CatalogSource " ++ keyString src ++ " not found"))⟩, []) ∧
      FindReplacement q n p c src =
        (⟨none, none, some (.errorf ("CatalogSource " ++ src.Name ++ " not found"))⟩, []) := by
  have ht : Targets src := ⟨hname, hns⟩
  refine ⟨?_, ?_, ?_, ?_⟩
  · rw [FindPackage_eq, if_pos ht, targeted_absent _ _ _ _ habs]
  · rw [FindBundle_eq, if_pos ht, targeted_absent _ _ _ _ habs]
  · rw [FindLatestBundle_eq, if_pos ht, targeted_absent _ _ _ _ habs]
  · rw [FindReplacement_eq, if_pos ht, targeted_absent _ _ _ _ habs]

/-- C3, witness: `B` is not registered in `{A: etcdSource}`; every lookup for a bundle that
`A` holds fails without a call. -/
theorem targeted_unregistered_witness :
    (keyB.Name ≠ "" ∧ keyB.Namespace ≠ "" ∧
      ∀ e ∈ (⟨[(keyA, etcdSource)]⟩ : NamespaceSourceQuerier String).sources, e.1 ≠ keyB) ∧
    FindPackage slashKey ⟨[(keyA, etcdSource)]⟩ "etcd" "alpha" "etcd.v1" keyB =
      (⟨none, none, some (.errorf "CatalogSource B/ns not found")⟩, []) ∧
    FindBundle slashKey ⟨[(keyA, etcdSource)]⟩ "etcd" "alpha" "etcd.v1" keyB =
      (⟨none, none, some (.errorf "CatalogSource B/ns not found")⟩, []) ∧
    FindLatestBundle slashKey ⟨[(keyA, etcdSource)]⟩ "etcd" "alpha" keyB =
      (⟨none, none, some (.errorf "CatalogSource B/ns not found")⟩, []) ∧
    FindReplacement ⟨[(keyA, etcdSource)]⟩ "etcd.v1" "etcd" "alpha" keyB =
      (⟨none, none, some (.errorf "CatalogSource B not found")⟩, []) := by
  have habs : ∀ e ∈ (⟨[(keyA, etcdSource)]⟩ : NamespaceSourceQuerier String).sources,
      e.1 ≠ keyB := by
    intro e he
    simp only [List.mem_singleton] at he
    subst he
    decide
  exact ⟨⟨by decide, by decide, habs⟩,
    targeted_unregistered slashKey ⟨[(keyA, etcdSource)]⟩ "etcd" "alpha" "etcd.v1" keyB
      (by decide) (by decide) habs⟩

/-- C3, counterexample: the key `{Name: "B", Namespace: ""}` is not the zero key and is not
registered in `{A: etcdSource}`, yet every lookup given it as preferred source calls `A` and
returns the bundle of `A` without error. -/
theorem nonzero_unregistered_counterexample :
    (¬ ((⟨"B", ""⟩ : CatalogKey).Name = "" ∧ (⟨"B", ""⟩ : CatalogKey).Namespace = "") ∧
      ∀ e ∈ [(keyA, etcdSource)], e.1 ≠ (⟨"B", ""⟩ : CatalogKey)) ∧
    FindPackage slashKey ⟨[(keyA, etcdSource)]⟩ "etcd" "alpha" "etcd.v1" ⟨"B", ""⟩ =
      (⟨some "etcd.v1", some keyA, none⟩, [⟨keyA, .GetBundle "etcd" "alpha" "etcd.v1"⟩]) ∧
    FindBundle slashKey ⟨[(keyA, etcdSource)]⟩ "etcd" "alpha" "etcd.v1" ⟨"B", ""⟩ =
      (⟨some "etcd.v1", some keyA, none⟩, [⟨keyA, .GetBundle "etcd" "alpha" "etcd.v1"⟩]) ∧
    FindLatestBundle slashKey ⟨[(keyA, etcdSource)]⟩ "etcd" "alpha" ⟨"B", ""⟩ =
      (⟨some "etcd.v2", some keyA, none⟩,
        [⟨keyA, .GetBundleInPackageChannel "etcd" "alpha"⟩]) ∧
    FindReplacement ⟨[(keyA, etcdSource)]⟩ "etcd.v1" "etcd" "alpha" ⟨"B", ""⟩ =
      (⟨some "etcd.v2", some keyA, none⟩,
        [⟨keyA, .GetReplacementBundleInPackageChannel "etcd.v1" "etcd" "alpha"⟩]) := by
  refine ⟨⟨by decide, ?_⟩, by decide, by decide, by decide, by decide⟩
  intro e he
  simp only [List.mem_singleton] at he
  subst he
  decide

/-- C4, as amended. A preferred source whose `Name` and `Namespace` are both non-empty and
which is registered in the mapping makes each of `FindPackage`, `FindBundle`,
`FindLatestBundle` and `FindReplacement` issue exactly one remote call, the query of the
operation sent to the preferred source, however many other sources are registered. -/
theorem targeted_single_call {B : Type} (keyString : CatalogKey → String)
    (q : NamespaceSourceQuerier B) (p c n : String) (src : CatalogKey) (s : Source B)
    (hname : src.Name ≠ "") (hns : src.Namespace ≠ "") (hreg : index q.sources src = some s) :
    (FindPackage keyString q p c n src).2 =
        [⟨src, if n ≠ "" then .GetBundle p c n else .GetBundleInPackageChannel p c⟩] ∧
      (FindBundle keyString q p c n src).2 = [⟨src, .GetBundle p c n⟩] ∧
      (FindLatestBundle keyString q p c src).2 = [⟨src, .GetBundleInPackageChannel p c⟩] ∧
      (FindReplacement q n p c src).2 =
        [⟨src, .GetReplacementBundleInPackageChannel n p c⟩] := by
  have ht : Targets src := ⟨hname, hns⟩
  refine ⟨?_, ?_, ?_, ?_⟩
  · rw [FindPackage_eq, if_pos ht, targeted_calls _ _ _ _ s hreg]
    rfl
  · rw [FindBundle_eq, if_pos ht, targeted_calls _ _ _ _ s hreg]
  · rw [FindLatestBundle_eq, if_pos ht, targeted_calls _ _ _ _ s hreg]
  · rw [FindReplacement_eq, if_pos ht, targeted_calls _ _ _ _ s hreg]

/-- C4, witness: with `A` preferred in `{B: downSource, A: etcdSource}`, visited `B` first,
the one call of each lookup goes to `A`. -/
theorem targeted_single_call_witness :
    (keyA.Name ≠ "" ∧ keyA.Namespace ≠ "" ∧
      (index twoSourcesSwapped keyA).isSome = true) ∧
    (FindPackage slashKey ⟨twoSourcesSwapped⟩ "etcd" "alpha" "" keyA).2 =
      [⟨keyA, .GetBundleInPackageChannel "etcd" "alpha"⟩] ∧
    (FindBundle slashKey ⟨twoSourcesSwapped⟩ "etcd" "alpha" "" keyA).2 =
      [⟨keyA, .GetBundle "etcd" "alpha" ""⟩] ∧
    (FindLatestBundle slashKey ⟨twoSourcesSwapped⟩ "etcd" "alpha" keyA).2 =
      [⟨keyA, .GetBundleInPackageChannel "etcd" "alpha"⟩] ∧
    (FindReplacement ⟨twoSourcesSwapped⟩ "" "etcd" "alpha" keyA).2 =
      [⟨keyA, .GetReplacementBundleInPackageChannel "" "etcd" "alpha"⟩] :=
  ⟨⟨by decide, by decide, by decide⟩,
    targeted_single_call slashKey ⟨twoSourcesSwapped⟩ "etcd" "alpha" "" keyA etcdSource
      (by decide) (by decide) rfl⟩

/-- C4, counterexample: the key `{Name: "A", Namespace: ""}` is not the zero key and is
registered in `{B: downSource, {A, ""}: etcdSource}`; visited `B` first, every lookup given
it as preferred source issues two remote calls, the first of them to `B`. -/
theorem nonzero_registered_counterexample :
    (¬ ((⟨"A", ""⟩ : CatalogKey).Name = "" ∧ (⟨"A", ""⟩ : CatalogKey).Namespace = "") ∧
      (index [(keyB, downSource), (⟨"A", ""⟩, etcdSource)] ⟨"A", ""⟩).isSome = true) ∧
    (FindPackage slashKey ⟨[(keyB, downSource), (⟨"A", ""⟩, etcdSource)]⟩
        "etcd" "alpha" "etcd.v1" ⟨"A", ""⟩).2 =
      [⟨keyB, .GetBundle "etcd" "alpha" "etcd.v1"⟩,
        ⟨⟨"A", ""⟩, .GetBundle "etcd" "alpha" "etcd.v1"⟩] ∧
    (FindBundle slashKey ⟨[(keyB, downSource), (⟨"A", ""⟩, etcdSource)]⟩
        "etcd" "alpha" "etcd.v1" ⟨"A", ""⟩).2 =
      [⟨keyB, .GetBundle "etcd" "alpha" "etcd.v1"⟩,
        ⟨⟨"A", ""⟩, .GetBundle "etcd" "alpha" "etcd.v1"⟩] ∧
    (FindLatestBundle slashKey ⟨[(keyB, downSource), (⟨"A", ""⟩, etcdSource)]⟩
        "etcd" "alpha" ⟨"A", ""⟩).2 =
      [⟨keyB, .GetBundleInPackageChannel "etcd" "alpha"⟩,
        ⟨⟨"A", ""⟩, .GetBundleInPackageChannel "etcd" "alpha"⟩] ∧
    (FindReplacement ⟨[(keyB, downSource), (⟨"A", ""⟩, etcdSource)]⟩
        "etcd.v1" "etcd" "alpha" ⟨"A", ""⟩).2 =
      [⟨keyB, .GetReplacementBundleInPackageChannel "etcd.v1" "etcd" "alpha"⟩,
        ⟨⟨"A", ""⟩, .GetReplacementBundleInPackageChannel "etcd.v1" "etcd" "alpha"⟩] := by
  refine ⟨⟨by decide, by decide⟩, by decide, by decide, by decide, by decide⟩

/-- C5. In targeted mode, that is with a preferred source whose `Name` and `Namespace` are
both non-empty and which is registered, each of `FindPackage`, `FindBundle`,
`FindLatestBundle` and `FindReplacement` hands on the reply of the preferred source: if the
remote call returned the error `e`, the result is exactly `e`, with no bundle and no key; if
it returned a bundle without error, the result is that bundle with the key of the preferred
source. Every mapping `q2` that registers the same source under that key gives the same
result and the same call. -/
theorem targeted_verbatim {B : Type} (keyString : CatalogKey → String)
    (q q2 : NamespaceSourceQuerier B) (p c n : String) (src : CatalogKey) (s : Source B)
    (hname : src.Name ≠ "") (hns : src.Namespace ≠ "") (hreg : index q.sources src = some s)
    (hreg2 : index q2.sources src = some s) :
    (HandsOn (FindPackage keyString q p c n src)
          (if n ≠ "" then s.GetBundle p c n else s.GetBundleInPackageChannel p c) src ∧
        FindPackage keyString q p c n src = FindPackage keyString q2 p c n src) ∧
      (HandsOn (FindBundle keyString q p c n src) (s.GetBundle p c n) src ∧
        FindBundle keyString q p c n src = FindBundle keyString q2 p c n src) ∧
      (HandsOn (FindLatestBundle keyString q p c src) (s.GetBundleInPackageChannel p c) src ∧
        FindLatestBundle keyString q p c src = FindLatestBundle keyString q2 p c src) ∧
      (HandsOn (FindReplacement q n p c src)
          (s.GetReplacementBundleInPackageChannel n p c) src ∧
        FindReplacement q n p c src = FindReplacement q2 n p c src) := by
  have ht : Targets src := ⟨hname, hns⟩
  refine ⟨⟨?_, ?_⟩, ⟨?_, ?_⟩, ⟨?_, ?_⟩, ⟨?_, ?_⟩⟩
  · rw [FindPackage_eq, if_pos ht, ← answer_packageRequest]
    exact targeted_handsOn _ _ _ _ s hreg
  · rw [FindPackage_eq, FindPackage_eq, if_pos ht, if_pos ht]
    exact targeted_congr _ _ _ _ _ s hreg hreg2
  · rw [FindBundle_eq, if_pos ht]
    exact targeted_handsOn _ _ _ _ s hreg
  · rw [FindBundle_eq, FindBundle_eq, if_pos ht, if_pos ht]
    exact targeted_congr _ _ _ _ _ s hreg hreg2
  · rw [FindLatestBundle_eq, if_pos ht]
    exact targeted_handsOn _ _ _ _ s hreg
  · rw [FindLatestBundle_eq, FindLatestBundle_eq, if_pos ht, if_pos ht]
    exact targeted_congr _ _ _ _ _ s hreg hreg2
  · rw [FindReplacement_eq, if_pos ht]
    exact targeted_handsOn _ _ _ _ s hreg
  · rw [FindReplacement_eq, FindReplacement_eq, if_pos ht, if_pos ht]
    exact targeted_congr _ _ _ _ _ s hreg hreg2

/-- C5, witness: with `A` preferred, the bundle `etcd.v1` of `A` comes back with key `A`, and
the error of `A` for an unknown package comes back unchanged, in `{B, A}` as in `{A}`. -/
theorem targeted_verbatim_witness :
    (keyA.Name ≠ "" ∧ keyA.Namespace ≠ "" ∧ (index twoSourcesSwapped keyA).isSome = true) ∧
    (FindBundle slashKey ⟨twoSourcesSwapped⟩ "etcd" "alpha" "etcd.v1" keyA).1 =
      ⟨some "etcd.v1", some keyA, none⟩ ∧
    (FindBundle slashKey ⟨twoSourcesSwapped⟩ "absent" "alpha" "etcd.v1" keyA).1 =
      ⟨none, none, some (.remote missing)⟩ ∧
    FindBundle slashKey ⟨twoSourcesSwapped⟩ "etcd" "alpha" "etcd.v1" keyA =
      FindBundle slashKey ⟨[(keyA, etcdSource)]⟩ "etcd" "alpha" "etcd.v1" keyA :=
  ⟨⟨by decide, by decide, by decide⟩,
    (targeted_verbatim slashKey ⟨twoSourcesSwapped⟩ ⟨[(keyA, etcdSource)]⟩ "etcd" "alpha"
      "etcd.v1" keyA etcdSource (by decide) (by decide) rfl rfl).2.1.1.2 rfl,
    (targeted_verbatim slashKey ⟨twoSourcesSwapped⟩ ⟨[(keyA, etcdSource)]⟩ "absent" "alpha"
      "etcd.v1" keyA etcdSource (by decide) (by decide) rfl rfl).2.1.1.1 missing rfl,
    (targeted_verbatim slashKey ⟨twoSourcesSwapped⟩ ⟨[(keyA, etcdSource)]⟩ "etcd" "alpha"
      "etcd.v1" keyA etcdSource (by decide) (by decide) rfl rfl).2.1.2⟩

/-! ## Capability lookup -/

theorem FindProvider_eq {B : Type} (apiString : APIKey → String)
    (q : NamespaceSourceQuerier B) (api : APIKey) :
    FindProvider apiString q api =
      match rangeSources (provide api) q.sources with
      | (some out, log) => (out, log)
      | (none, log) =>
        (⟨none, none,
          some (.errorf (apiString api ++ " not provided by a package in any CatalogSource"))⟩,
          log) :=
  rfl

theorem provide_group {B : Type} (api : APIKey) (k : CatalogKey) (s : Source B)
    (h : (groupReply api s).err = none) :
    provide api k s = (some ⟨(groupReply api s).bundle, some k, none⟩,
      [⟨k, .GetBundleThatProvides api.Group api.Version api.Kind⟩]) := by
  unfold groupReply at h ⊢
  rcases hr : s.GetBundleThatProvides api.Group api.Version api.Kind with ⟨b, e⟩
  rw [hr] at h
  simp only at h
  subst h
  simp only [provide, issue, Source.answer, hr]

theorem provide_plural {B : Type} (api : APIKey) (k : CatalogKey) (s : Source B)
    (h1 : (groupReply api s).err ≠ none) (h2 : (pluralReply api s).err = none) :
    provide api k s = (some ⟨(pluralReply api s).bundle, some k, none⟩,
      [⟨k, .GetBundleThatProvides api.Group api.Version api.Kind⟩,
        ⟨k, .GetBundleThatProvides (api.Plural ++ "." ++ api.Group) api.Version api.Kind⟩]) := by
  unfold groupReply at h1
  unfold pluralReply at h2 ⊢
  rcases hr1 : s.GetBundleThatProvides api.Group api.Version api.Kind with ⟨b1, e1⟩
  rcases hr2 : s.GetBundleThatProvides (api.Plural ++ "." ++ api.Group) api.Version api.Kind
    with ⟨b2, e2⟩
  rw [hr1] at h1
  rw [hr2] at h2
  simp only at h2
  subst h2
  cases e1 with
  | none => exact absurd rfl h1
  | some e1 => simp [provide, issue, Source.answer, hr1, hr2]

theorem provide_neither {B : Type} (api : APIKey) (k : CatalogKey) (s : Source B)
    (h1 : (groupReply api s).err ≠ none) (h2 : (pluralReply api s).err ≠ none) :
    provide api k s = (none,
      [⟨k, .GetBundleThatProvides api.Group api.Version api.Kind⟩,
        ⟨k, .GetBundleThatProvides (api.Plural ++ "." ++ api.Group) api.Version api.Kind⟩]) := by
  unfold groupReply at h1
  unfold pluralReply at h2
  rcases hr1 : s.GetBundleThatProvides api.Group api.Version api.Kind with ⟨b1, e1⟩
  rcases hr2 : s.GetBundleThatProvides (api.Plural ++ "." ++ api.Group) api.Version api.Kind
    with ⟨b2, e2⟩
  rw [hr1] at h1
  rw [hr2] at h2
  cases e1 with
  | none => exact absurd rfl h1
  | some e1 =>
    cases e2 with
    | none => exact absurd rfl h2
    | some e2 => simp [provide, issue, Source.answer, hr1, hr2]

theorem provide_fst_eq_none_iff {B : Type} (api : APIKey) (k : CatalogKey) (s : Source B) :
    (provide api k s).1 = none ↔
      (groupReply api s).err ≠ none ∧ (pluralReply api s).err ≠ none := by
  by_cases h1 : (groupReply api s).err = none
  · simp [provide_group api k s h1, h1]
  · by_cases h2 : (pluralReply api s).err = none
    · simp [provide_plural api k s h1 h2, h2]
    · simp [provide_neither api k s h1 h2, h1, h2]

/-- The outcome of a returning iteration of `FindProvider` is the reply to one of the forms. -/
theorem provide_some {B : Type} (api : APIKey) (k : CatalogKey) (s : Source B)
    (out : Outcome B) (h : (provide api k s).1 = some out) :
    out.key = some k ∧ out.err = none ∧
      (((groupReply api s).err = none ∧ (groupReply api s).bundle = out.bundle) ∨
        ((pluralReply api s).err = none ∧ (pluralReply api s).bundle = out.bundle)) := by
  by_cases h1 : (groupReply api s).err = none
  · rw [provide_group api k s h1] at h
    simp only [Option.some.injEq] at h
    subst h
    exact ⟨rfl, rfl, Or.inl ⟨h1, rfl⟩⟩
  · by_cases h2 : (pluralReply api s).err = none
    · rw [provide_plural api k s h1 h2] at h
      simp only [Option.some.injEq] at h
      subst h
      exact ⟨rfl, rfl, Or.inr ⟨h2, rfl⟩⟩
    · rw [provide_neither api k s h1 h2] at h
      simp at h

theorem FindProvider_exhausted {B : Type} (apiString : APIKey → String)
    (q : NamespaceSourceQuerier B) (api : APIKey)
    (h : ∀ e ∈ q.sources, (groupReply api e.2).err ≠ none ∧ (pluralReply api e.2).err ≠ none) :
    (FindProvider apiString q api).1 = ⟨none, none,
      some (.errorf (apiString api ++ " not provided by a package in any CatalogSource"))⟩ := by
  have hb : ∀ e ∈ q.sources, (provide api e.1 e.2).1 = none :=
    fun e he => (provide_fst_eq_none_iff api e.1 e.2).2 (h e he)
  rw [FindProvider_eq, rangeSources_exhausted (provide api) q.sources hb]

theorem FindProvider_first {B : Type} (apiString : APIKey → String)
    (q : NamespaceSourceQuerier B) (api : APIKey) (pre post : List (CatalogKey × Source B))
    (k : CatalogKey) (s : Source B) (out : Outcome B) (hl : q.sources = pre ++ (k, s) :: post)
    (hpre : ∀ e ∈ pre, (groupReply api e.2).err ≠ none ∧ (pluralReply api e.2).err ≠ none)
    (hk : (provide api k s).1 = some out) : (FindProvider apiString q api).1 = out := by
  have hb : ∀ e ∈ pre, (provide api e.1 e.2).1 = none :=
    fun e he => (provide_fst_eq_none_iff api e.1 e.2).2 (hpre e he)
  rw [FindProvider_eq, hl, rangeSources_first (provide api) pre post k s out hb hk]

/-- C6, as amended. `FindProvider` succeeds exactly when some registered source answers
`GetBundleThatProvides` without error for `(Group, Version, Kind)` or for
`(Plural + "." + Group, Version, Kind)`, for every mapping in every iteration order. When a
source answers only the second form, and no source visited before it answers either form,
`FindProvider` returns the bundle and the key of that source. When every source fails both
forms, it returns the not-provided error built by `fmt.Errorf`, no bundle and no key. -/
theorem findProvider_dual_identity {B : Type} (apiString : APIKey → String)
    (q : NamespaceSourceQuerier B) (api : APIKey) :
    ((FindProvider apiString q api).1.err = none ↔
        ∃ e ∈ q.sources,
          (e.2.GetBundleThatProvides api.Group api.Version api.Kind).err = none ∨
          (e.2.GetBundleThatProvides (api.Plural ++ "." ++ api.Group) api.Version
            api.Kind).err = none) ∧
      (∀ (pre post : List (CatalogKey × Source B)) (k : CatalogKey) (s : Source B),
        q.sources = pre ++ (k, s) :: post →
        (∀ e ∈ pre,
          (e.2.GetBundleThatProvides api.Group api.Version api.Kind).err ≠ none ∧
          (e.2.GetBundleThatProvides (api.Plural ++ "." ++ api.Group) api.Version
            api.Kind).err ≠ none) →
        (s.GetBundleThatProvides api.Group api.Version api.Kind).err ≠ none →
        (s.GetBundleThatProvides (api.Plural ++ "." ++ api.Group) api.Version
          api.Kind).err = none →
        (FindProvider apiString q api).1 =
          ⟨(s.GetBundleThatProvides (api.Plural ++ "." ++ api.Group) api.Version
            api.Kind).bundle, some k, none⟩) ∧
      ((∀ e ∈ q.sources,
          (e.2.GetBundleThatProvides api.Group api.Version api.Kind).err ≠ none ∧
          (e.2.GetBundleThatProvides (api.Plural ++ "." ++ api.Group) api.Version
            api.Kind).err ≠ none) →
        (FindProvider apiString q api).1 = ⟨none, none, some (.errorf
          (apiString api ++ " not provided by a package in any CatalogSource"))⟩) := by
  refine ⟨?_, ?_, FindProvider_exhausted apiString q api⟩
  · rcases split_first (provide api) q.sources with hall | ⟨pre, k, s, post, out, hl, hpre, hk⟩
    · have hall2 : ∀ e ∈ q.sources,
          (groupReply api e.2).err ≠ none ∧ (pluralReply api e.2).err ≠ none :=
        fun e he => (provide_fst_eq_none_iff api e.1 e.2).1 (hall e he)
      rw [FindProvider_exhausted apiString q api hall2]
      constructor
      · intro h
        simp at h
      · rintro ⟨e, he, h1 | h2⟩
        · exact absurd h1 (hall2 e he).1
        · exact absurd h2 (hall2 e he).2
    · have hpre2 : ∀ e ∈ pre,
          (groupReply api e.2).err ≠ none ∧ (pluralReply api e.2).err ≠ none :=
        fun e he => (provide_fst_eq_none_iff api e.1 e.2).1 (hpre e he)
      rw [FindProvider_first apiString q api pre post k s out hl hpre2 hk]
      obtain ⟨-, herr, hform⟩ := provide_some api k s out hk
      refine ⟨fun _ => ⟨(k, s), by simp [hl], ?_⟩, fun _ => herr⟩
      rcases hform with h | h
      · exact Or.inl h.1
      · exact Or.inr h.1
  · intro pre post k s hl hpre h1 h2
    refine FindProvider_first apiString q api pre post k s _ hl hpre ?_
    rw [provide_plural api k s h1 h2]
    rfl

/-- C6, witness: `{B: downSource, A: pluralSource}` visited `B` first; `A` answers only the
`Plural.Group` form, and `FindProvider` returns its bundle with key `A`. -/
theorem findProvider_dual_identity_witness :
    ((pluralSource.GetBundleThatProvides etcdAPI.Group etcdAPI.Version etcdAPI.Kind).err ≠ none ∧
      (pluralSource.GetBundleThatProvides (etcdAPI.Plural ++ "." ++ etcdAPI.Group)
        etcdAPI.Version etcdAPI.Kind).err = none) ∧
    (FindProvider slashAPI ⟨[(keyB, downSource), (keyA, pluralSource)]⟩ etcdAPI).1 =
      ⟨some "etcd.plural", some keyA, none⟩ :=
  ⟨⟨by decide, by decide⟩,
    (findProvider_dual_identity slashAPI ⟨[(keyB, downSource), (keyA, pluralSource)]⟩
      etcdAPI).2.1 [(keyB, downSource)] [] keyA pluralSource rfl
      (by
        intro e he
        simp only [List.mem_singleton] at he
        subst he
        decide)
      (by decide) (by decide)⟩

/-- C6, counterexample: in `{A: etcdSource, B: pluralSource}` visited `A` first, `B` answers
only the `Plural.Group` form and not the bare `Group` form, yet `FindProvider` returns the
bundle and key of `A`, not those of `B`. -/
theorem findProvider_plural_only_counterexample :
    ((pluralSource.GetBundleThatProvides etcdAPI.Group etcdAPI.Version etcdAPI.Kind).err ≠ none ∧
      (pluralSource.GetBundleThatProvides (etcdAPI.Plural ++ "." ++ etcdAPI.Group)
        etcdAPI.Version etcdAPI.Kind) = ⟨some "etcd.plural", none⟩) ∧
    (FindProvider slashAPI ⟨[(keyA, etcdSource), (keyB, pluralSource)]⟩ etcdAPI).1 =
      ⟨some "etcd.v2", some keyA, none⟩ ∧
    (FindProvider slashAPI ⟨[(keyA, etcdSource), (keyB, pluralSource)]⟩ etcdAPI).1 ≠
      ⟨some "etcd.plural", some keyB, none⟩ := by
  refine ⟨⟨by decide, by decide⟩, by decide, by decide⟩

/-! ## The branch of `FindPackage` -/

/-- C7. With an empty release name `FindPackage` is `FindLatestBundle`: for every mapping in
every iteration order, every package, channel and preferred source, the two return the same
bundle, key and error and issue the same remote calls in the same order. -/
theorem findPackage_empty_release {B : Type} (keyString : CatalogKey → String)
    (q : NamespaceSourceQuerier B) (p c : String) (src : CatalogKey) :
    FindPackage keyString q p c "" src = FindLatestBundle keyString q p c src := by
  rw [FindPackage_eq, FindLatestBundle_eq]
  rfl

/-- With a release name, `FindPackage` sends the request of `FindBundle`; the two differ only
in the message of the error that ends an exhausted fan-out. -/
theorem findPackage_release_cases {B : Type} (keyString : CatalogKey → String)
    (q : NamespaceSourceQuerier B) (p c n : String) (src : CatalogKey) (hn : n ≠ "") :
    (FindPackage keyString q p c n src).2 = (FindBundle keyString q p c n src).2 ∧
      ((Targets src ∨ ∃ e ∈ q.sources, (e.2.GetBundle p c n).err = none) →
        FindPackage keyString q p c n src = FindBundle keyString q p c n src) ∧
      (¬ Targets src → (∀ e ∈ q.sources, (e.2.GetBundle p c n).err ≠ none) →
        (FindPackage keyString q p c n src).1 = ⟨none, none, some (.errorf
            (p ++ "/" ++ c ++ " not found in any available CatalogSource"))⟩ ∧
          (FindBundle keyString q p c n src).1 = ⟨none, none, some (.errorf
            (p ++ "/" ++ c ++ "/" ++ n ++ " not found in any available CatalogSource"))⟩) := by
  have hreq : packageRequest p c n = .GetBundle p c n := by
    simp [packageRequest, hn]
  rw [FindPackage_eq, FindBundle_eq, hreq]
  by_cases ht : Targets src
  · rw [if_pos ht, if_pos ht]
    exact ⟨rfl, fun _ => rfl, fun h => absurd ht h⟩
  · rw [if_neg ht, if_neg ht]
    rcases split_first_answer (.GetBundle p c n) q.sources with
      hall | ⟨pre, k, s, post, hl, hpre, hk⟩
    · rw [fanOut_exhausted _ _ _ hall, fanOut_exhausted _ _ _ hall]
      refine ⟨rfl, ?_, fun _ _ => ⟨rfl, rfl⟩⟩
      rintro (h | ⟨e, he, hans⟩)
      · exact absurd h ht
      · exact absurd hans (hall e he)
    · rw [hl, fanOut_first _ _ pre post k s hpre hk, fanOut_first _ _ pre post k s hpre hk]
      exact ⟨rfl, fun _ => rfl, fun _ hall => absurd hk (hall (k, s) (by simp))⟩

/-- C8, the code at a failing input: no source of `{A: etcdSource, B: downSource}` holds the
release `etcd.v9`, and with the zero catalog key `FindBundle` ends with an error naming
`etcd/alpha/etcd.v9` while `FindPackage` ends with a different error naming `etcd/alpha`. -/
theorem findPackage_release_divergence :
    ("etcd.v9" ≠ "") ∧
    (FindBundle slashKey ⟨twoSources⟩ "etcd" "alpha" "etcd.v9" CatalogKey.zero).1 =
      (⟨none, none,
        some (.errorf "etcd/alpha/etcd.v9 not found in any available CatalogSource")⟩ :
        Outcome String) ∧
    (FindPackage slashKey ⟨twoSources⟩ "etcd" "alpha" "etcd.v9" CatalogKey.zero).1 =
      (⟨none, none, some (.errorf "etcd/alpha not found in any available CatalogSource")⟩ :
        Outcome String) ∧
    (FindPackage slashKey ⟨twoSources⟩ "etcd" "alpha" "etcd.v9" CatalogKey.zero).1.err ≠
      (FindBundle slashKey ⟨twoSources⟩ "etcd" "alpha" "etcd.v9" CatalogKey.zero).1.err := by
  refine ⟨by decide, by decide, by decide, by decide⟩

/-! ## Soundness -/

theorem fanOut_sound {B : Type} (req : Request) (msg : String)
    (l : List (CatalogKey × Source B)) (hl : KeysNodup l) :
    Sound (fanOut req msg l) l (fun s => s.answer req) := by
  intro herr
  rcases split_first_answer req l with hall | ⟨pre, k, s, post, hsplit, hpre, hk⟩
  · rw [fanOut_exhausted req msg l hall] at herr
    simp at herr
  · have hres := fanOut_first req msg pre post k s hpre hk
    rw [← hsplit] at hres
    rw [hres]
    exact ⟨k, s, rfl, index_of_mem l hl k s (by simp [hsplit]), hk, rfl⟩

theorem targeted_sound {B : Type} (req : Request) (msg : String)
    (l : List (CatalogKey × Source B)) (src : CatalogKey) :
    Sound (targeted req msg l src) l (fun s => s.answer req) := by
  intro herr
  cases hi : index l src with
  | none =>
    simp [targeted, hi] at herr
  | some s =>
    have hh := targeted_handsOn req msg l src s hi
    cases he : (s.answer req).err with
    | some e =>
      rw [hh.1 e he] at herr
      simp at herr
    | none =>
      rw [hh.2 he]
      exact ⟨src, s, rfl, hi, he, rfl⟩

/-- C9. Let the keys of the mapping be pairwise different. Whenever `FindPackage`,
`FindBundle`, `FindLatestBundle`, `FindReplacement` or `FindProvider` returns without error,
the result carries a key `k` that is registered in the mapping, and the source registered
under `k` answers the remote query of the operation for the given parameters (for
`FindProvider`: in one of its two forms) without error and with exactly the returned
bundle. -/
theorem lookup_sound {B : Type} (keyString : CatalogKey → String)
    (apiString : APIKey → String) (q : NamespaceSourceQuerier B)
    (hnodup : KeysNodup q.sources) (p c n : String) (src : CatalogKey) (api : APIKey) :
    Sound (FindPackage keyString q p c n src) q.sources
        (fun s => if n ≠ "" then s.GetBundle p c n else s.GetBundleInPackageChannel p c) ∧
      Sound (FindBundle keyString q p c n src) q.sources (fun s => s.GetBundle p c n) ∧
      Sound (FindLatestBundle keyString q p c src) q.sources
        (fun s => s.GetBundleInPackageChannel p c) ∧
      Sound (FindReplacement q n p c src) q.sources
        (fun s => s.GetReplacementBundleInPackageChannel n p c) ∧
      ((FindProvider apiString q api).1.err = none →
        ∃ k s, (FindProvider apiString q api).1.key = some k ∧ index q.sources k = some s ∧
          (((s.GetBundleThatProvides api.Group api.Version api.Kind).err = none ∧
              (s.GetBundleThatProvides api.Group api.Version api.Kind).bundle =
                (FindProvider apiString q api).1.bundle) ∨
            ((s.GetBundleThatProvides (api.Plural ++ "." ++ api.Group) api.Version
                api.Kind).err = none ∧
              (s.GetBundleThatProvides (api.Plural ++ "." ++ api.Group) api.Version
                api.Kind).bundle = (FindProvider apiString q api).1.bundle))) := by
  refine ⟨?_, ?_, ?_, ?_, ?_⟩
  · rw [FindPackage_eq]
    have h1 := targeted_sound (packageRequest p c n)
      ("CatalogSource " ++ keyString src ++ " not found") q.sources src
    have h2 := fanOut_sound (packageRequest p c n)
      (p ++ "/" ++ c ++ " not found in any available CatalogSource") q.sources hnodup
    simp only [answer_packageRequest] at h1 h2
    split
    · exact h1
    · exact h2
  · rw [FindBundle_eq]
    split
    · exact targeted_sound _ _ _ _
    · exact fanOut_sound _ _ _ hnodup
  · rw [FindLatestBundle_eq]
    split
    · exact targeted_sound _ _ _ _
    · exact fanOut_sound _ _ _ hnodup
  · rw [FindReplacement_eq]
    split
    · exact targeted_sound _ _ _ _
    · exact fanOut_sound _ _ _ hnodup
  · intro herr
    rcases split_first (provide api) q.sources with hall | ⟨pre, k, s, post, out, hl, hpre, hk⟩
    · have hall2 : ∀ e ∈ q.sources,
          (groupReply api e.2).err ≠ none ∧ (pluralReply api e.2).err ≠ none :=
        fun e he => (provide_fst_eq_none_iff api e.1 e.2).1 (hall e he)
      rw [FindProvider_exhausted apiString q api hall2] at herr
      simp at herr
    · have hpre2 : ∀ e ∈ pre,
          (groupReply api e.2).err ≠ none ∧ (pluralReply api e.2).err ≠ none :=
        fun e he => (provide_fst_eq_none_iff api e.1 e.2).1 (hpre e he)
      rw [FindProvider_first apiString q api pre post k s out hl hpre2 hk]
      obtain ⟨hkey, -, hform⟩ := provide_some api k s out hk
      exact ⟨k, s, hkey, index_of_mem q.sources hnodup k s (by simp [hl]), hform⟩

/-- C9, witness: in `{B: downSource, A: etcdSource}` the successful `FindBundle` for
`etcd/alpha/etcd.v1` names a registered key whose source answers with the returned bundle. -/
theorem lookup_sound_witness :
    KeysNodup twoSourcesSwapped ∧
    (FindBundle slashKey ⟨twoSourcesSwapped⟩ "etcd" "alpha" "etcd.v1" CatalogKey.zero).1 =
      ⟨some "etcd.v1", some keyA, none⟩ ∧
    ∃ k s,
      (FindBundle slashKey ⟨twoSourcesSwapped⟩ "etcd" "alpha" "etcd.v1" CatalogKey.zero).1.key =
        some k ∧
      index twoSourcesSwapped k = some s ∧
      (s.GetBundle "etcd" "alpha" "etcd.v1").err = none ∧
      (s.GetBundle "etcd" "alpha" "etcd.v1").bundle =
        (FindBundle slashKey ⟨twoSourcesSwapped⟩ "etcd" "alpha" "etcd.v1"
          CatalogKey.zero).1.bundle :=
  ⟨by unfold KeysNodup twoSourcesSwapped; decide, by decide,
    (lookup_sound slashKey slashAPI ⟨twoSourcesSwapped⟩
      (by unfold KeysNodup twoSourcesSwapped; decide) "etcd" "alpha" "etcd.v1"
      CatalogKey.zero etcdAPI).2.1 (by decide)⟩

/-! ## The precondition check -/

/-- C10. `Queryable` returns an error exactly when the mapping has zero entries, and the error
is then the no-sources error built by `fmt.Errorf`; for every non-empty mapping it returns no
error, whatever its sources would answer; and it never issues a remote call. -/
theorem queryable_iff_no_sources {B : Type} (q : NamespaceSourceQuerier B) :
    ((Queryable q).1 ≠ none ↔ q.sources.length = 0) ∧
      (q.sources.length = 0 →
        (Queryable q).1 = some (.errorf "no catalog sources available")) ∧
      (q.sources ≠ [] → (Queryable q).1 = none) ∧
      (Queryable q).2 = [] := by
  unfold Queryable
  by_cases h : q.sources.length = 0
  · have hnil : q.sources = [] := List.length_eq_zero.1 h
    simp [h, hnil]
  · have hne : q.sources ≠ [] := fun hnil => h (by simp [hnil])
    simp [h, hne]

/-! ## The message of the not-found error -/

theorem mentions_left (a b : String) : Mentions (a ++ b) a := by
  unfold Mentions
  rw [String.data_append]
  exact ⟨[], b.data, by simp⟩

theorem mentions_right (a b : String) : Mentions (a ++ b) b := by
  unfold Mentions
  rw [String.data_append]
  exact ⟨a.data, [], by simp⟩

theorem mentions_trans (a b c : String) (h1 : Mentions a b) (h2 : Mentions b c) :
    Mentions a c := by
  unfold Mentions at *
  exact List.IsInfix.trans h2 h1

/-- What the not-found messages do name: package and channel in the four package lookups, the
release as well in `FindBundle`, and the rendered API key in `FindProvider`. -/
theorem notFound_mentions (apiString : APIKey → String) (p c n : String) (api : APIKey) :
    (Mentions (p ++ "/" ++ c ++ " not found in any available CatalogSource") (p ++ "/" ++ c) ∧
      Mentions (p ++ "/" ++ c ++ " not found in any available CatalogSource") p ∧
      Mentions (p ++ "/" ++ c ++ " not found in any available CatalogSource") c) ∧
    (Mentions (p ++ "/" ++ c ++ "/" ++ n ++ " not found in any available CatalogSource") p ∧
      Mentions (p ++ "/" ++ c ++ "/" ++ n ++ " not found in any available CatalogSource") c ∧
      Mentions (p ++ "/" ++ c ++ "/" ++ n ++ " not found in any available CatalogSource") n) ∧
    Mentions (apiString api ++ " not provided by a package in any CatalogSource")
      (apiString api) := by
  have hpc : Mentions (p ++ "/" ++ c ++ " not found in any available CatalogSource")
      (p ++ "/" ++ c) := mentions_left _ _
  have hpcn : Mentions (p ++ "/" ++ c ++ "/" ++ n ++ " not found in any available CatalogSource")
      (p ++ "/" ++ c ++ "/" ++ n) := mentions_left _ _
  have hpc2 : Mentions (p ++ "/" ++ c ++ "/" ++ n) (p ++ "/" ++ c) :=
    mentions_trans _ _ _ (mentions_left _ n) (mentions_left _ "/")
  have hp : Mentions (p ++ "/" ++ c) p :=
    mentions_trans _ _ _ (mentions_left _ c) (mentions_left p "/")
  have hc : Mentions (p ++ "/" ++ c) c := mentions_right _ _
  refine ⟨⟨hpc, mentions_trans _ _ _ hpc hp, mentions_trans _ _ _ hpc hc⟩,
    ⟨mentions_trans _ _ _ hpcn (mentions_trans _ _ _ hpc2 hp),
      mentions_trans _ _ _ hpcn (mentions_trans _ _ _ hpc2 hc),
      mentions_trans _ _ _ hpcn (mentions_right _ _)⟩,
    mentions_left _ _⟩

/-- C11, the code at a failing input: no source of `{A: etcdSource, B: downSource}` holds the
release `etcd.v9`. With the zero catalog key the not-found error of `FindBundle` names the
release, but the not-found errors of `FindReplacement` and of `FindPackage`, both called with
that release, are `etcd/alpha not found in any available CatalogSource`, which does not
contain `etcd.v9`. -/
theorem notFound_omits_release :
    ((FindReplacement ⟨twoSources⟩ "etcd.v9" "etcd" "alpha" CatalogKey.zero).1 =
        (⟨none, none, some (.errorf "etcd/alpha not found in any available CatalogSource")⟩ :
          Outcome String) ∧
      (FindPackage slashKey ⟨twoSources⟩ "etcd" "alpha" "etcd.v9" CatalogKey.zero).1 =
        (⟨none, none, some (.errorf "etcd/alpha not found in any available CatalogSource")⟩ :
          Outcome String) ∧
      ¬ Mentions "etcd/alpha not found in any available CatalogSource" "etcd.v9") ∧
    ((FindBundle slashKey ⟨twoSources⟩ "etcd" "alpha" "etcd.v9" CatalogKey.zero).1 =
        (⟨none, none,
          some (.errorf "etcd/alpha/etcd.v9 not found in any available CatalogSource")⟩ :
          Outcome String) ∧
      Mentions "etcd/alpha/etcd.v9 not found in any available CatalogSource" "etcd.v9") := by
  refine ⟨⟨by decide, by decide, by decide⟩, by decide, by decide⟩

/-- C12. When no source of the mapping answers `GetBundleInPackageChannel(p, c)` without
error, `FindLatestBundle(p, c, zero key)` returns no bundle, no key and a not-found error
built by `fmt.Errorf` whose message contains the text `p + "/" + c`. -/
theorem findLatestBundle_notFound_message {B : Type} (keyString : CatalogKey → String)
    (q : NamespaceSourceQuerier B) (p c : String)
    (h : ∀ e ∈ q.sources, (e.2.GetBundleInPackageChannel p c).err ≠ none) :
    ∃ msg : String,
      (FindLatestBundle keyString q p c CatalogKey.zero).1 =
        ⟨none, none, some (.errorf msg)⟩ ∧
      Mentions msg (p ++ "/" ++ c) := by
  have hz : ¬ Targets CatalogKey.zero := by simp [Targets, CatalogKey.zero]
  refine ⟨p ++ "/" ++ c ++ " not found in any available CatalogSource", ?_,
    mentions_left _ _⟩
  rw [FindLatestBundle_eq, if_neg hz, fanOut_exhausted _ _ _ h]

/-- C12, witness: neither source of `{A: etcdSource, B: downSource}` has the package
`missing`; the error of `FindLatestBundle("missing", "alpha", zero key)` mentions
`missing/alpha`. -/
theorem findLatestBundle_notFound_message_witness :
    (∀ e ∈ twoSources, (e.2.GetBundleInPackageChannel "missing" "alpha").err ≠ none) ∧
    (FindLatestBundle slashKey ⟨twoSources⟩ "missing" "alpha" CatalogKey.zero).1 =
      ⟨none, none, some (.errorf "missing/alpha not found in any available CatalogSource")⟩ ∧
    ∃ msg : String,
      (FindLatestBundle slashKey ⟨twoSources⟩ "missing" "alpha" CatalogKey.zero).1 =
        ⟨none, none, some (.errorf msg)⟩ ∧
      Mentions msg "missing/alpha" := by
  have h : ∀ e ∈ twoSources, (e.2.GetBundleInPackageChannel "missing" "alpha").err ≠ none := by
    intro e he
    simp only [twoSources, List.mem_cons, List.mem_singleton, List.not_mem_nil, or_false] at he
    rcases he with rfl | rfl <;> decide
  exact ⟨h, by decide,
    findLatestBundle_notFound_message slashKey ⟨twoSources⟩ "missing" "alpha" h⟩

/-! ## The calls of `FindProvider` -/

theorem flatMap_provide_snd {B : Type} (api : APIKey) (l : List (CatalogKey × Source B))
    (h : ∀ e ∈ l, (groupReply api e.2).err ≠ none ∧ (pluralReply api e.2).err ≠ none) :
    l.flatMap (fun e => (provide api e.1 e.2).2) = providerCalls api l := by
  induction l with
  | nil => rfl
  | cons e rest ih =>
    have he := h e (List.mem_cons_self _ _)
    have hrest := ih (fun x hx => h x (List.mem_cons_of_mem _ hx))
    simp only [providerCalls, List.flatMap_cons] at hrest ⊢
    rw [hrest, provide_neither api e.1 e.2 he.1 he.2]
    rfl

theorem FindProvider_exhausted_result {B : Type} (apiString : APIKey → String)
    (q : NamespaceSourceQuerier B) (api : APIKey)
    (h : ∀ e ∈ q.sources, (groupReply api e.2).err ≠ none ∧ (pluralReply api e.2).err ≠ none) :
    FindProvider apiString q api = (⟨none, none,
      some (.errorf (apiString api ++ " not provided by a package in any CatalogSource"))⟩,
      providerCalls api q.sources) := by
  have hb : ∀ e ∈ q.sources, (provide api e.1 e.2).1 = none :=
    fun e he => (provide_fst_eq_none_iff api e.1 e.2).2 (h e he)
  rw [FindProvider_eq, rangeSources_exhausted (provide api) q.sources hb,
    flatMap_provide_snd api q.sources h]

theorem FindProvider_first_group {B : Type} (apiString : APIKey → String)
    (q : NamespaceSourceQuerier B) (api : APIKey) (pre post : List (CatalogKey × Source B))
    (k : CatalogKey) (s : Source B) (hl : q.sources = pre ++ (k, s) :: post)
    (hpre : ∀ e ∈ pre, (groupReply api e.2).err ≠ none ∧ (pluralReply api e.2).err ≠ none)
    (hk : (groupReply api s).err = none) :
    FindProvider apiString q api = (⟨(groupReply api s).bundle, some k, none⟩,
      providerCalls api pre ++ [⟨k, groupRequest api⟩]) := by
  have hb : ∀ e ∈ pre, (provide api e.1 e.2).1 = none :=
    fun e he => (provide_fst_eq_none_iff api e.1 e.2).2 (hpre e he)
  have hs : (provide api k s).1 = some ⟨(groupReply api s).bundle, some k, none⟩ := by
    rw [provide_group api k s hk]
  rw [FindProvider_eq, hl, rangeSources_first (provide api) pre post k s _ hb hs,
    flatMap_provide_snd api pre hpre, provide_group api k s hk]
  rfl

theorem FindProvider_first_plural {B : Type} (apiString : APIKey → String)
    (q : NamespaceSourceQuerier B) (api : APIKey) (pre post : List (CatalogKey × Source B))
    (k : CatalogKey) (s : Source B) (hl : q.sources = pre ++ (k, s) :: post)
    (hpre : ∀ e ∈ pre, (groupReply api e.2).err ≠ none ∧ (pluralReply api e.2).err ≠ none)
    (hg : (groupReply api s).err ≠ none) (hk : (pluralReply api s).err = none) :
    FindProvider apiString q api = (⟨(pluralReply api s).bundle, some k, none⟩,
      providerCalls api pre ++ [⟨k, groupRequest api⟩, ⟨k, pluralRequest api⟩]) := by
  have hb : ∀ e ∈ pre, (provide api e.1 e.2).1 = none :=
    fun e he => (provide_fst_eq_none_iff api e.1 e.2).2 (hpre e he)
  have hs : (provide api k s).1 = some ⟨(pluralReply api s).bundle, some k, none⟩ := by
    rw [provide_plural api k s hg hk]
  rw [FindProvider_eq, hl, rangeSources_first (provide api) pre post k s _ hb hs,
    flatMap_provide_snd api pre hpre, provide_plural api k s hg hk]
  rfl

theorem pluralRequest_ne_groupRequest (api : APIKey) :
    pluralRequest api ≠ groupRequest api := by
  intro h
  simp only [pluralRequest, groupRequest, Request.GetBundleThatProvides.injEq, and_true] at h
  have hlen := congrArg String.length h
  simp only [String.length_append] at hlen
  have h1 : ".".length = 1 := rfl
  omega

/-! ## Who is called -/

theorem target_mem_of_mem_callsTo {B : Type} (req : Request)
    (l : List (CatalogKey × Source B)) (call : Call) (h : call ∈ callsTo req l) :
    call.target ∈ l.map Prod.fst := by
  simp only [callsTo, List.mem_map] at h ⊢
  obtain ⟨e, he, rfl⟩ := h
  exact ⟨e, he, rfl⟩

theorem target_mem_of_mem_providerCalls {B : Type} (api : APIKey)
    (l : List (CatalogKey × Source B)) (call : Call) (h : call ∈ providerCalls api l) :
    call.target ∈ l.map Prod.fst := by
  simp only [providerCalls, List.mem_flatMap, List.mem_cons, List.mem_singleton,
    List.not_mem_nil, or_false] at h
  obtain ⟨e, he, rfl | rfl⟩ := h
  · exact List.mem_map.2 ⟨e, he, rfl⟩
  · exact List.mem_map.2 ⟨e, he, rfl⟩

/-- In a mapping with pairwise different keys, a key of the part visited up to a source is
not a key of the part visited after it. -/
theorem later_key_not_earlier {B : Type} (pre post : List (CatalogKey × Source B))
    (k : CatalogKey) (s : Source B) (hn : KeysNodup (pre ++ (k, s) :: post))
    (x : CatalogKey) (hx : x ∈ (pre ++ [(k, s)]).map Prod.fst)
    (e : CatalogKey × Source B) (he : e ∈ post) : x ≠ e.1 := by
  have hsplit : pre ++ (k, s) :: post = (pre ++ [(k, s)]) ++ post := by simp
  unfold KeysNodup at hn
  rw [hsplit, List.map_append, List.nodup_append] at hn
  intro hxe
  exact hn.2.2 hx (hxe ▸ List.mem_map.2 ⟨e, he, rfl⟩)

theorem key_not_in_pre {B : Type} (pre post : List (CatalogKey × Source B))
    (k : CatalogKey) (s : Source B) (hn : KeysNodup (pre ++ (k, s) :: post)) :
    k ∉ pre.map Prod.fst := by
  unfold KeysNodup at hn
  rw [List.map_append, List.nodup_append] at hn
  intro hk
  exact hn.2.2 hk (by simp)

theorem fanOut_earliest {B : Type} (req : Request) (msg : String)
    (pre post : List (CatalogKey × Source B)) (k : CatalogKey) (s : Source B)
    (hn : KeysNodup (pre ++ (k, s) :: post))
    (hpre : ∀ e ∈ pre, (e.2.answer req).err ≠ none) (hk : (s.answer req).err = none) :
    (fanOut req msg (pre ++ (k, s) :: post)).2 = callsTo req pre ++ [⟨k, req⟩] ∧
      EarliestWins (fanOut req msg (pre ++ (k, s) :: post)) pre k post
        (s.answer req).bundle := by
  rw [fanOut_first req msg pre post k s hpre hk]
  refine ⟨by simp [callsTo], rfl, ?_, ?_⟩
  · intro e he
    exact ⟨⟨e.1, req⟩, by simp only [callsTo, List.mem_map]; exact ⟨e, by simp [he], rfl⟩, rfl⟩
  · intro e he call hcall
    exact later_key_not_earlier pre post k s hn call.target
      (target_mem_of_mem_callsTo req _ call hcall) e he

theorem findProvider_earliest_group {B : Type} (apiString : APIKey → String)
    (q : NamespaceSourceQuerier B) (api : APIKey) (pre post : List (CatalogKey × Source B))
    (k : CatalogKey) (s : Source B) (hl : q.sources = pre ++ (k, s) :: post)
    (hn : KeysNodup q.sources)
    (hpre : ∀ e ∈ pre, (groupReply api e.2).err ≠ none ∧ (pluralReply api e.2).err ≠ none)
    (hk : (groupReply api s).err = none) :
    EarliestWins (FindProvider apiString q api) pre k post (groupReply api s).bundle := by
  rw [FindProvider_first_group apiString q api pre post k s hl hpre hk]
  rw [hl] at hn
  refine ⟨rfl, ?_, ?_⟩
  · intro e he
    refine ⟨⟨e.1, groupRequest api⟩, ?_, rfl⟩
    simp only [providerCalls, List.mem_append, List.mem_flatMap, List.mem_cons]
    exact Or.inl ⟨e, he, Or.inl rfl⟩
  · intro e he call hcall
    refine later_key_not_earlier pre post k s hn call.target ?_ e he
    rcases List.mem_append.1 hcall with h | h
    · have := target_mem_of_mem_providerCalls api pre call h
      simp only [List.map_append, List.mem_append]
      exact Or.inl this
    · simp only [List.mem_singleton] at h
      subst h
      simp

theorem findProvider_earliest_plural {B : Type} (apiString : APIKey → String)
    (q : NamespaceSourceQuerier B) (api : APIKey) (pre post : List (CatalogKey × Source B))
    (k : CatalogKey) (s : Source B) (hl : q.sources = pre ++ (k, s) :: post)
    (hn : KeysNodup q.sources)
    (hpre : ∀ e ∈ pre, (groupReply api e.2).err ≠ none ∧ (pluralReply api e.2).err ≠ none)
    (hg : (groupReply api s).err ≠ none) (hk : (pluralReply api s).err = none) :
    EarliestWins (FindProvider apiString q api) pre k post (pluralReply api s).bundle := by
  rw [FindProvider_first_plural apiString q api pre post k s hl hpre hg hk]
  rw [hl] at hn
  refine ⟨rfl, ?_, ?_⟩
  · intro e he
    refine ⟨⟨e.1, groupRequest api⟩, ?_, rfl⟩
    simp only [providerCalls, List.mem_append, List.mem_flatMap, List.mem_cons]
    exact Or.inl ⟨e, he, Or.inl rfl⟩
  · intro e he call hcall
    refine later_key_not_earlier pre post k s hn call.target ?_ e he
    rcases List.mem_append.1 hcall with h | h
    · have := target_mem_of_mem_providerCalls api pre call h
      simp only [List.map_append, List.mem_append]
      exact Or.inl this
    · simp only [List.mem_cons, List.mem_singleton, List.not_mem_nil, or_false] at h
      rcases h with rfl | rfl <;> simp

/-- C13. Let the mapping, with pairwise different keys, be visited in the order
`pre ++ (k, s) :: post`, where no source of `pre` answers the query of the operation without
error and the source `s` does. Then each of `FindPackage`, `FindBundle`, `FindLatestBundle`
and `FindReplacement` called with the zero catalog key, and `FindProvider`, returns the
bundle of `s` with the key `k`; its calls are one call (for `FindProvider`: the two calls) to
each source of `pre`, in order, followed by the call (for `FindProvider`: the one or two
calls) to `s`; so every source before `s` has been called and none after it. -/
theorem first_answer_wins {B : Type} (keyString : CatalogKey → String)
    (apiString : APIKey → String) (q : NamespaceSourceQuerier B)
    (pre post : List (CatalogKey × Source B)) (k : CatalogKey) (s : Source B)
    (hsplit : q.sources = pre ++ (k, s) :: post) (hnodup : KeysNodup q.sources)
    (p c n : String) (api : APIKey) :
    ((∀ e ∈ pre, (e.2.GetBundle p c n).err ≠ none) → (s.GetBundle p c n).err = none →
        (FindBundle keyString q p c n CatalogKey.zero).2 =
          callsTo (.GetBundle p c n) pre ++ [⟨k, .GetBundle p c n⟩] ∧
        EarliestWins (FindBundle keyString q p c n CatalogKey.zero) pre k post
          (s.GetBundle p c n).bundle) ∧
      ((∀ e ∈ pre, (e.2.GetBundleInPackageChannel p c).err ≠ none) →
        (s.GetBundleInPackageChannel p c).err = none →
        (FindLatestBundle keyString q p c CatalogKey.zero).2 =
          callsTo (.GetBundleInPackageChannel p c) pre ++
            [⟨k, .GetBundleInPackageChannel p c⟩] ∧
        EarliestWins (FindLatestBundle keyString q p c CatalogKey.zero) pre k post
          (s.GetBundleInPackageChannel p c).bundle) ∧
      ((∀ e ∈ pre, (e.2.GetReplacementBundleInPackageChannel n p c).err ≠ none) →
        (s.GetReplacementBundleInPackageChannel n p c).err = none →
        (FindReplacement q n p c CatalogKey.zero).2 =
          callsTo (.GetReplacementBundleInPackageChannel n p c) pre ++
            [⟨k, .GetReplacementBundleInPackageChannel n p c⟩] ∧
        EarliestWins (FindReplacement q n p c CatalogKey.zero) pre k post
          (s.GetReplacementBundleInPackageChannel n p c).bundle) ∧
      ((∀ e ∈ pre, (e.2.answer (packageRequest p c n)).err ≠ none) →
        (s.answer (packageRequest p c n)).err = none →
        (FindPackage keyString q p c n CatalogKey.zero).2 =
          callsTo (packageRequest p c n) pre ++ [⟨k, packageRequest p c n⟩] ∧
        EarliestWins (FindPackage keyString q p c n CatalogKey.zero) pre k post
          (s.answer (packageRequest p c n)).bundle) ∧
      ((∀ e ∈ pre,
          (e.2.GetBundleThatProvides api.Group api.Version api.Kind).err ≠ none ∧
          (e.2.GetBundleThatProvides (api.Plural ++ "." ++ api.Group) api.Version
            api.Kind).err ≠ none) →
        ((s.GetBundleThatProvides api.Group api.Version api.Kind).err = none →
          (FindProvider apiString q api).2 =
            providerCalls api pre ++ [⟨k, groupRequest api⟩] ∧
          EarliestWins (FindProvider apiString q api) pre k post
            (s.GetBundleThatProvides api.Group api.Version api.Kind).bundle) ∧
        ((s.GetBundleThatProvides api.Group api.Version api.Kind).err ≠ none →
          (s.GetBundleThatProvides (api.Plural ++ "." ++ api.Group) api.Version
            api.Kind).err = none →
          (FindProvider apiString q api).2 =
            providerCalls api pre ++ [⟨k, groupRequest api⟩, ⟨k, pluralRequest api⟩] ∧
          EarliestWins (FindProvider apiString q api) pre k post
            (s.GetBundleThatProvides (api.Plural ++ "." ++ api.Group) api.Version
              api.Kind).bundle)) := by
  have hz : ¬ Targets CatalogKey.zero := by simp [Targets, CatalogKey.zero]
  have hn : KeysNodup (pre ++ (k, s) :: post) := hsplit ▸ hnodup
  refine ⟨fun hpre hk => ?_, fun hpre hk => ?_, fun hpre hk => ?_, fun hpre hk => ?_,
    fun hpre => ⟨fun hk => ?_, fun hg hk => ?_⟩⟩
  · rw [FindBundle_eq, if_neg hz, hsplit]
    exact fanOut_earliest _ _ pre post k s hn hpre hk
  · rw [FindLatestBundle_eq, if_neg hz, hsplit]
    exact fanOut_earliest _ _ pre post k s hn hpre hk
  · rw [FindReplacement_eq, if_neg hz, hsplit]
    exact fanOut_earliest _ _ pre post k s hn hpre hk
  · rw [FindPackage_eq, if_neg hz, hsplit]
    exact fanOut_earliest _ _ pre post k s hn hpre hk
  · exact ⟨by rw [FindProvider_first_group apiString q api pre post k s hsplit hpre hk],
      findProvider_earliest_group apiString q api pre post k s hsplit hnodup hpre hk⟩
  · exact ⟨by rw [FindProvider_first_plural apiString q api pre post k s hsplit hpre hg hk],
      findProvider_earliest_plural apiString q api pre post k s hsplit hnodup hpre hg hk⟩

/-- C13, witness: in `{B: downSource, A: etcdSource, C: etcdSource}`, visited in that order,
`A` and `C` both hold `etcd/alpha/etcd.v1`; `FindBundle` calls `B`, then `A`, returns the
bundle of `A` with key `A`, and does not call `C`. -/
theorem first_answer_wins_witness :
    (KeysNodup threeSources ∧
      (∀ e ∈ [(keyB, downSource)], (e.2.GetBundle "etcd" "alpha" "etcd.v1").err ≠ none) ∧
      (etcdSource.GetBundle "etcd" "alpha" "etcd.v1").err = none) ∧
    (FindBundle slashKey ⟨threeSources⟩ "etcd" "alpha" "etcd.v1" CatalogKey.zero).2 =
      [⟨keyB, .GetBundle "etcd" "alpha" "etcd.v1"⟩, ⟨keyA, .GetBundle "etcd" "alpha" "etcd.v1"⟩] ∧
    EarliestWins (FindBundle slashKey ⟨threeSources⟩ "etcd" "alpha" "etcd.v1" CatalogKey.zero)
      [(keyB, downSource)] keyA [(keyC, etcdSource)] (some "etcd.v1") := by
  have hn : KeysNodup threeSources := by unfold KeysNodup threeSources; decide
  have hpre : ∀ e ∈ [(keyB, downSource)],
      (e.2.GetBundle "etcd" "alpha" "etcd.v1").err ≠ none := by
    intro e he
    simp only [List.mem_singleton] at he
    subst he
    decide
  exact ⟨⟨hn, hpre, by decide⟩,
    (first_answer_wins slashKey slashAPI ⟨threeSources⟩ [(keyB, downSource)]
      [(keyC, etcdSource)] keyA etcdSource rfl hn "etcd" "alpha" "etcd.v1" etcdAPI).1
      hpre (by decide)⟩

/-! ## The two forms of a capability -/

/-- C14. Let the mapping, with pairwise different keys, be visited in the order
`pre ++ (k, s) :: post`, where no source of `pre` answers either form of the capability, so
that `s` is the earliest source that could answer. If `s` answers the `(Group, Version,
Kind)` form, `FindProvider` returns the bundle of that answer with key `k`, its last call is
the `Group` call to `s`, and the `Plural + "." + Group` call to `s` is never issued. If `s`
answers only the `Plural + "." + Group` form, `FindProvider` asks `s` the `Group` form first
and the `Plural + "." + Group` form next, and returns the bundle of that second answer with
key `k`, whatever the sources of `post` would answer. -/
theorem findProvider_forms_in_order {B : Type} (apiString : APIKey → String)
    (q : NamespaceSourceQuerier B) (api : APIKey) (pre post : List (CatalogKey × Source B))
    (k : CatalogKey) (s : Source B) (hsplit : q.sources = pre ++ (k, s) :: post)
    (hnodup : KeysNodup q.sources)
    (hpre : ∀ e ∈ pre,
      (e.2.GetBundleThatProvides api.Group api.Version api.Kind).err ≠ none ∧
      (e.2.GetBundleThatProvides (api.Plural ++ "." ++ api.Group) api.Version
        api.Kind).err ≠ none) :
    ((s.GetBundleThatProvides api.Group api.Version api.Kind).err = none →
        (FindProvider apiString q api).1 =
          ⟨(s.GetBundleThatProvides api.Group api.Version api.Kind).bundle, some k, none⟩ ∧
        (FindProvider apiString q api).2 =
          providerCalls api pre ++
            [⟨k, .GetBundleThatProvides api.Group api.Version api.Kind⟩] ∧
        (⟨k, .GetBundleThatProvides (api.Plural ++ "." ++ api.Group) api.Version api.Kind⟩ :
          Call) ∉ (FindProvider apiString q api).2) ∧
      ((s.GetBundleThatProvides api.Group api.Version api.Kind).err ≠ none →
        (s.GetBundleThatProvides (api.Plural ++ "." ++ api.Group) api.Version
          api.Kind).err = none →
        (FindProvider apiString q api).1 =
          ⟨(s.GetBundleThatProvides (api.Plural ++ "." ++ api.Group) api.Version
            api.Kind).bundle, some k, none⟩ ∧
        (FindProvider apiString q api).2 =
          providerCalls api pre ++
            [⟨k, .GetBundleThatProvides api.Group api.Version api.Kind⟩,
              ⟨k, .GetBundleThatProvides (api.Plural ++ "." ++ api.Group) api.Version
                api.Kind⟩]) := by
  refine ⟨fun hk => ?_, fun hg hk => ?_⟩
  · rw [FindProvider_first_group apiString q api pre post k s hsplit hpre hk]
    refine ⟨rfl, rfl, ?_⟩
    intro hmem
    rcases List.mem_append.1 hmem with h | h
    · have hkey := target_mem_of_mem_providerCalls api pre _ h
      rw [hsplit] at hnodup
      exact key_not_in_pre pre post k s hnodup hkey
    · simp only [List.mem_singleton, Call.mk.injEq, true_and] at h
      exact pluralRequest_ne_groupRequest api h
  · rw [FindProvider_first_plural apiString q api pre post k s hsplit hpre hg hk]
    exact ⟨rfl, rfl⟩

/-- C14, witness: in `{A: pluralSource, B: etcdSource}` visited `A` first, `A` answers only
the `Plural.Group` form and `B` the bare `Group` form; `FindProvider` asks `A` both forms,
`Group` first, and returns the bundle of `A`. In `{A: etcdSource, B: pluralSource}` the
`Group` answer of `A` is returned after a single call. -/
theorem findProvider_forms_in_order_witness :
    (FindProvider slashAPI ⟨[(keyA, pluralSource), (keyB, etcdSource)]⟩ etcdAPI).1 =
      ⟨some "etcd.plural", some keyA, none⟩ ∧
    (FindProvider slashAPI ⟨[(keyA, pluralSource), (keyB, etcdSource)]⟩ etcdAPI).2 =
      [⟨keyA, .GetBundleThatProvides "etcd.database.coreos.com" "v1beta2" "EtcdCluster"⟩,
        ⟨keyA, .GetBundleThatProvides "etcdclusters.etcd.database.coreos.com" "v1beta2"
          "EtcdCluster"⟩] ∧
    (FindProvider slashAPI ⟨[(keyA, etcdSource), (keyB, pluralSource)]⟩ etcdAPI).1 =
      ⟨some "etcd.v2", some keyA, none⟩ ∧
    (FindProvider slashAPI ⟨[(keyA, etcdSource), (keyB, pluralSource)]⟩ etcdAPI).2 =
      [⟨keyA, .GetBundleThatProvides "etcd.database.coreos.com" "v1beta2" "EtcdCluster"⟩] :=
  ⟨((findProvider_forms_in_order slashAPI ⟨[(keyA, pluralSource), (keyB, etcdSource)]⟩
      etcdAPI [] [(keyB, etcdSource)] keyA pluralSource rfl (by unfold KeysNodup; decide)
      (by simp)).2 (by decide) (by decide)).1,
    ((findProvider_forms_in_order slashAPI ⟨[(keyA, pluralSource), (keyB, etcdSource)]⟩
      etcdAPI [] [(keyB, etcdSource)] keyA pluralSource rfl (by unfold KeysNodup; decide)
      (by simp)).2 (by decide) (by decide)).2,
    ((findProvider_forms_in_order slashAPI ⟨[(keyA, etcdSource), (keyB, pluralSource)]⟩
      etcdAPI [] [(keyB, pluralSource)] keyA etcdSource rfl (by unfold KeysNodup; decide)
      (by simp)).1 (by decide)).1,
    ((findProvider_forms_in_order slashAPI ⟨[(keyA, etcdSource), (keyB, pluralSource)]⟩
      etcdAPI [] [(keyB, pluralSource)] keyA etcdSource rfl (by unfold KeysNodup; decide)
      (by simp)).1 (by decide)).2.1⟩

/-! ## What the not-found error tells -/

/-- C15. Take any two mappings, of any sizes, in neither of which a source answers the query
of the operation without error. Then with the zero catalog key each of `FindPackage`,
`FindBundle`, `FindLatestBundle` and `FindReplacement`, and `FindProvider`, returns on both
mappings the same result: no bundle, no key, and the same error. -/
theorem notFound_hides_sources {B : Type} (keyString : CatalogKey → String)
    (apiString : APIKey → String) (q1 q2 : NamespaceSourceQuerier B) (p c n : String)
    (api : APIKey) :
    ((∀ e ∈ q1.sources ++ q2.sources, (e.2.GetBundle p c n).err ≠ none) →
        (FindBundle keyString q1 p c n CatalogKey.zero).1 =
          (FindBundle keyString q2 p c n CatalogKey.zero).1) ∧
      ((∀ e ∈ q1.sources ++ q2.sources, (e.2.GetBundleInPackageChannel p c).err ≠ none) →
        (FindLatestBundle keyString q1 p c CatalogKey.zero).1 =
          (FindLatestBundle keyString q2 p c CatalogKey.zero).1) ∧
      ((∀ e ∈ q1.sources ++ q2.sources,
          (e.2.GetReplacementBundleInPackageChannel n p c).err ≠ none) →
        (FindReplacement q1 n p c CatalogKey.zero).1 =
          (FindReplacement q2 n p c CatalogKey.zero).1) ∧
      ((∀ e ∈ q1.sources ++ q2.sources,
          (if n ≠ "" then e.2.GetBundle p c n
            else e.2.GetBundleInPackageChannel p c).err ≠ none) →
        (FindPackage keyString q1 p c n CatalogKey.zero).1 =
          (FindPackage keyString q2 p c n CatalogKey.zero).1) ∧
      ((∀ e ∈ q1.sources ++ q2.sources,
          (e.2.GetBundleThatProvides api.Group api.Version api.Kind).err ≠ none ∧
          (e.2.GetBundleThatProvides (api.Plural ++ "." ++ api.Group) api.Version
            api.Kind).err ≠ none) →
        (FindProvider apiString q1 api).1 = (FindProvider apiString q2 api).1) := by
  have hz : ¬ Targets CatalogKey.zero := by simp [Targets, CatalogKey.zero]
  refine ⟨fun h => ?_, fun h => ?_, fun h => ?_, fun h => ?_, fun h => ?_⟩
  · rw [FindBundle_eq, FindBundle_eq, if_neg hz, if_neg hz,
      fanOut_exhausted (.GetBundle p c n) _ q1.sources
        (fun e he => h e (List.mem_append_left _ he)),
      fanOut_exhausted (.GetBundle p c n) _ q2.sources
        (fun e he => h e (List.mem_append_right _ he))]
  · rw [FindLatestBundle_eq, FindLatestBundle_eq, if_neg hz, if_neg hz,
      fanOut_exhausted (.GetBundleInPackageChannel p c) _ q1.sources
        (fun e he => h e (List.mem_append_left _ he)),
      fanOut_exhausted (.GetBundleInPackageChannel p c) _ q2.sources
        (fun e he => h e (List.mem_append_right _ he))]
  · rw [FindReplacement_eq, FindReplacement_eq, if_neg hz, if_neg hz,
      fanOut_exhausted (.GetReplacementBundleInPackageChannel n p c) _ q1.sources
        (fun e he => h e (List.mem_append_left _ he)),
      fanOut_exhausted (.GetReplacementBundleInPackageChannel n p c) _ q2.sources
        (fun e he => h e (List.mem_append_right _ he))]
  · have h1 : ∀ e ∈ q1.sources, (e.2.answer (packageRequest p c n)).err ≠ none := by
      intro e he
      rw [answer_packageRequest]
      exact h e (List.mem_append_left _ he)
    have h2 : ∀ e ∈ q2.sources, (e.2.answer (packageRequest p c n)).err ≠ none := by
      intro e he
      rw [answer_packageRequest]
      exact h e (List.mem_append_right _ he)
    rw [FindPackage_eq, FindPackage_eq, if_neg hz, if_neg hz,
      fanOut_exhausted _ _ q1.sources h1, fanOut_exhausted _ _ q2.sources h2]
  · rw [FindProvider_exhausted apiString q1 api (fun e he => h e (List.mem_append_left _ he)),
      FindProvider_exhausted apiString q2 api (fun e he => h e (List.mem_append_right _ he))]

/-- C15, witness: `{A: etcdSource, B: downSource}` and the empty mapping give the same
not-found result for the package `missing`. -/
theorem notFound_hides_sources_witness :
    (∀ e ∈ twoSources ++ [], (e.2.GetBundleInPackageChannel "missing" "alpha").err ≠ none) ∧
    (FindLatestBundle slashKey ⟨twoSources⟩ "missing" "alpha" CatalogKey.zero).1 =
      (FindLatestBundle slashKey ⟨[]⟩ "missing" "alpha" CatalogKey.zero).1 := by
  have h : ∀ e ∈ twoSources ++ [],
      (e.2.GetBundleInPackageChannel "missing" "alpha").err ≠ none := by
    intro e he
    simp only [twoSources, List.append_nil, List.mem_cons, List.mem_singleton,
      List.not_mem_nil, or_false] at he
    rcases he with rfl | rfl <;> decide
  exact ⟨h, (notFound_hides_sources slashKey slashAPI ⟨twoSources⟩ ⟨[]⟩ "missing" "alpha"
    "etcd.v1" otherAPI).2.1 h⟩

/-! ## Counting the calls -/

theorem countP_target_callsTo {B : Type} (req : Request) (l : List (CatalogKey × Source B))
    (k : CatalogKey) :
    (callsTo req l).countP (fun call => call.target = k) = (l.map Prod.fst).count k := by
  induction l with
  | nil => rfl
  | cons e rest ih =>
    simp only [callsTo, List.map_cons, List.countP_cons, List.count_cons] at ih ⊢
    rw [ih]
    simp

theorem countP_target_providerCalls {B : Type} (api : APIKey)
    (l : List (CatalogKey × Source B)) (k : CatalogKey) :
    (providerCalls api l).countP (fun call => call.target = k) =
      2 * (l.map Prod.fst).count k := by
  induction l with
  | nil => rfl
  | cons e rest ih =>
    simp only [providerCalls, List.flatMap_cons, List.countP_append, List.map_cons,
      List.countP_cons, List.countP_nil, List.count_cons] at ih ⊢
    rw [ih]
    by_cases h : e.1 = k
    · simp [h]
      omega
    · simp [h]

theorem count_group_providerCalls {B : Type} (api : APIKey)
    (l : List (CatalogKey × Source B)) (k : CatalogKey) :
    (providerCalls api l).count ⟨k, groupRequest api⟩ = (l.map Prod.fst).count k := by
  have hne := pluralRequest_ne_groupRequest api
  induction l with
  | nil => rfl
  | cons e rest ih =>
    simp only [providerCalls, List.flatMap_cons, List.count_append, List.map_cons,
      List.count_cons, List.count_nil] at ih ⊢
    rw [ih]
    by_cases h : e.1 = k
    · simp [h, hne]
      omega
    · simp [h, hne]

theorem count_plural_providerCalls {B : Type} (api : APIKey)
    (l : List (CatalogKey × Source B)) (k : CatalogKey) :
    (providerCalls api l).count ⟨k, pluralRequest api⟩ = (l.map Prod.fst).count k := by
  have hne := (pluralRequest_ne_groupRequest api).symm
  induction l with
  | nil => rfl
  | cons e rest ih =>
    simp only [providerCalls, List.flatMap_cons, List.count_append, List.map_cons,
      List.count_cons, List.count_nil] at ih ⊢
    rw [ih]
    by_cases h : e.1 = k
    · simp [h, hne]
      omega
    · simp [h, hne]

theorem length_providerCalls {B : Type} (api : APIKey) (l : List (CatalogKey × Source B)) :
    (providerCalls api l).length = 2 * l.length := by
  induction l with
  | nil => rfl
  | cons e rest ih =>
    simp only [providerCalls, List.flatMap_cons, List.length_append, List.length_cons,
      List.length_nil] at ih ⊢
    omega

theorem providerCalls_append {B : Type} (api : APIKey) (l1 l2 : List (CatalogKey × Source B)) :
    providerCalls api (l1 ++ l2) = providerCalls api l1 ++ providerCalls api l2 := by
  simp [providerCalls]

/-- The calls of a fan-out are an initial part of one call to each source in order. -/
theorem fanOut_calls_sublist {B : Type} (req : Request) (msg : String)
    (l : List (CatalogKey × Source B)) : List.Sublist (fanOut req msg l).2 (callsTo req l) := by
  rcases split_first_answer req l with hall | ⟨pre, k, s, post, hl, hpre, hk⟩
  · rw [fanOut_exhausted req msg l hall]
  · rw [hl, fanOut_first req msg pre post k s hpre hk]
    have hsplit : pre ++ (k, s) :: post = (pre ++ [(k, s)]) ++ post := by simp
    rw [hsplit]
    exact List.Sublist.map _ (List.sublist_append_left _ _)

/-- The calls of `FindProvider` are an initial part of the two calls to each source. -/
theorem findProvider_calls_sublist {B : Type} (apiString : APIKey → String)
    (q : NamespaceSourceQuerier B) (api : APIKey) :
    List.Sublist (FindProvider apiString q api).2 (providerCalls api q.sources) := by
  rcases split_first (provide api) q.sources with hall | ⟨pre, k, s, post, out, hl, hpre, hk⟩
  · have hall2 : ∀ e ∈ q.sources,
        (groupReply api e.2).err ≠ none ∧ (pluralReply api e.2).err ≠ none :=
      fun e he => (provide_fst_eq_none_iff api e.1 e.2).1 (hall e he)
    rw [FindProvider_exhausted_result apiString q api hall2]
  · have hpre2 : ∀ e ∈ pre,
        (groupReply api e.2).err ≠ none ∧ (pluralReply api e.2).err ≠ none :=
      fun e he => (provide_fst_eq_none_iff api e.1 e.2).1 (hpre e he)
    have hfull : providerCalls api q.sources =
        providerCalls api pre ++
          ([⟨k, groupRequest api⟩, ⟨k, pluralRequest api⟩] ++ providerCalls api post) := by
      rw [hl, providerCalls_append]
      rfl
    rw [hfull]
    by_cases hg : (groupReply api s).err = none
    · rw [FindProvider_first_group apiString q api pre post k s hl hpre2 hg]
      refine List.Sublist.append (List.Sublist.refl _) ?_
      simp
    · have hp : (pluralReply api s).err = none := by
        by_contra hp
        rw [provide_neither api k s hg hp] at hk
        simp at hk
      rw [FindProvider_first_plural apiString q api pre post k s hl hpre2 hg hp]
      exact List.Sublist.append (List.Sublist.refl _) (List.sublist_append_left _ _)

theorem targeted_calls_length {B : Type} (req : Request) (msg : String)
    (l : List (CatalogKey × Source B)) (src : CatalogKey) :
    (targeted req msg l src).2.length ≤ 1 := by
  cases hi : index l src with
  | none => simp [targeted, hi]
  | some s => simp [targeted_calls req msg l src s hi]

/-- No source is called twice by a single-request lookup, in either mode. -/
theorem lookup_calls_count {B : Type} (req : Request) (m1 m2 : String)
    (l : List (CatalogKey × Source B)) (hl : KeysNodup l) (src k : CatalogKey) :
    (if Targets src then targeted req m1 l src else fanOut req m2 l).2.countP
      (fun call => call.target = k) ≤ 1 := by
  split
  · exact Nat.le_trans (List.countP_le_length _) (targeted_calls_length req m1 l src)
  · refine Nat.le_trans (List.Sublist.countP_le _ (fanOut_calls_sublist req m2 l)) ?_
    rw [countP_target_callsTo]
    exact List.nodup_iff_count_le_one.1 hl k

theorem fanOut_exhausted_length {B : Type} (req : Request) (msg : String)
    (l : List (CatalogKey × Source B)) (h : ∀ e ∈ l, (e.2.answer req).err ≠ none) :
    (fanOut req msg l).2.length = l.length := by
  rw [fanOut_exhausted req msg l h]
  simp [callsTo]

theorem not_targets_of_empty (src : CatalogKey) (h : src.Name = "" ∨ src.Namespace = "") :
    ¬ Targets src := by
  rintro ⟨h1, h2⟩
  rcases h with h | h
  · exact h1 h
  · exact h2 h

/-- C16. Let the keys of the mapping be pairwise different. In one call of `FindPackage`,
`FindBundle`, `FindLatestBundle` or `FindReplacement`, with any preferred source, at most one
remote call goes to each registered source. In one call of `FindProvider` at most two remote
calls go to each registered source, at most one of them in the `Group` form and at most one
in the `Plural + "." + Group` form, and every call is in one of these two forms. When a
fan-out ends with no source having answered, the number of calls is the number of registered
sources, and twice that number for `FindProvider`. -/
theorem no_retries {B : Type} (keyString : CatalogKey → String)
    (apiString : APIKey → String) (q : NamespaceSourceQuerier B)
    (hnodup : KeysNodup q.sources) (p c n : String) (src : CatalogKey) (api : APIKey) :
    (∀ k : CatalogKey,
        (FindPackage keyString q p c n src).2.countP (fun call => call.target = k) ≤ 1 ∧
        (FindBundle keyString q p c n src).2.countP (fun call => call.target = k) ≤ 1 ∧
        (FindLatestBundle keyString q p c src).2.countP (fun call => call.target = k) ≤ 1 ∧
        (FindReplacement q n p c src).2.countP (fun call => call.target = k) ≤ 1) ∧
      (∀ k : CatalogKey,
        (FindProvider apiString q api).2.countP (fun call => call.target = k) ≤ 2 ∧
        (FindProvider apiString q api).2.count
          ⟨k, .GetBundleThatProvides api.Group api.Version api.Kind⟩ ≤ 1 ∧
        (FindProvider apiString q api).2.count
          ⟨k, .GetBundleThatProvides (api.Plural ++ "." ++ api.Group) api.Version
            api.Kind⟩ ≤ 1) ∧
      (∀ call ∈ (FindProvider apiString q api).2,
        call.request = .GetBundleThatProvides api.Group api.Version api.Kind ∨
        call.request =
          .GetBundleThatProvides (api.Plural ++ "." ++ api.Group) api.Version api.Kind) ∧
      ((src.Name = "" ∨ src.Namespace = "") →
        ((∀ e ∈ q.sources, (if n ≠ "" then e.2.GetBundle p c n
            else e.2.GetBundleInPackageChannel p c).err ≠ none) →
          (FindPackage keyString q p c n src).2.length = q.sources.length) ∧
        ((∀ e ∈ q.sources, (e.2.GetBundle p c n).err ≠ none) →
          (FindBundle keyString q p c n src).2.length = q.sources.length) ∧
        ((∀ e ∈ q.sources, (e.2.GetBundleInPackageChannel p c).err ≠ none) →
          (FindLatestBundle keyString q p c src).2.length = q.sources.length) ∧
        ((∀ e ∈ q.sources, (e.2.GetReplacementBundleInPackageChannel n p c).err ≠ none) →
          (FindReplacement q n p c src).2.length = q.sources.length)) ∧
      ((∀ e ∈ q.sources,
          (e.2.GetBundleThatProvides api.Group api.Version api.Kind).err ≠ none ∧
          (e.2.GetBundleThatProvides (api.Plural ++ "." ++ api.Group) api.Version
            api.Kind).err ≠ none) →
        (FindProvider apiString q api).2.length = 2 * q.sources.length) := by
  have hcount : ∀ k, (q.sources.map Prod.fst).count k ≤ 1 :=
    List.nodup_iff_count_le_one.1 hnodup
  have hsub := findProvider_calls_sublist apiString q api
  refine ⟨fun k => ⟨?_, ?_, ?_, ?_⟩, fun k => ⟨?_, ?_, ?_⟩, ?_, fun hsrc => ⟨?_, ?_, ?_, ?_⟩, ?_⟩
  · rw [FindPackage_eq]
    exact lookup_calls_count _ _ _ q.sources hnodup src k
  · rw [FindBundle_eq]
    exact lookup_calls_count _ _ _ q.sources hnodup src k
  · rw [FindLatestBundle_eq]
    exact lookup_calls_count _ _ _ q.sources hnodup src k
  · rw [FindReplacement_eq]
    exact lookup_calls_count _ _ _ q.sources hnodup src k
  · refine Nat.le_trans (List.Sublist.countP_le _ hsub) ?_
    rw [countP_target_providerCalls]
    have := hcount k
    omega
  · refine Nat.le_trans (List.Sublist.count_le hsub _) ?_
    have h := count_group_providerCalls api q.sources k
    rw [groupRequest] at h
    rw [h]
    exact hcount k
  · refine Nat.le_trans (List.Sublist.count_le hsub _) ?_
    have h := count_plural_providerCalls api q.sources k
    rw [pluralRequest] at h
    rw [h]
    exact hcount k
  · intro call hcall
    have hmem := hsub.subset hcall
    simp only [providerCalls, List.mem_flatMap, List.mem_cons, List.mem_singleton,
      List.not_mem_nil, or_false] at hmem
    obtain ⟨e, -, rfl | rfl⟩ := hmem
    · exact Or.inl rfl
    · exact Or.inr rfl
  · intro h
    have h' : ∀ e ∈ q.sources, (e.2.answer (packageRequest p c n)).err ≠ none := by
      intro e he
      rw [answer_packageRequest]
      exact h e he
    rw [FindPackage_eq, if_neg (not_targets_of_empty src hsrc)]
    exact fanOut_exhausted_length _ _ _ h'
  · intro h
    rw [FindBundle_eq, if_neg (not_targets_of_empty src hsrc)]
    exact fanOut_exhausted_length (.GetBundle p c n) _ _ h
  · intro h
    rw [FindLatestBundle_eq, if_neg (not_targets_of_empty src hsrc)]
    exact fanOut_exhausted_length (.GetBundleInPackageChannel p c) _ _ h
  · intro h
    rw [FindReplacement_eq, if_neg (not_targets_of_empty src hsrc)]
    exact fanOut_exhausted_length (.GetReplacementBundleInPackageChannel n p c) _ _ h
  · intro h
    rw [FindProvider_exhausted_result apiString q api h, length_providerCalls]

/-- C16, witness: no source of `{B: downSource, A: etcdSource, C: etcdSource}` knows the
package `missing` or provides `otherAPI`; `FindBundle` issues three calls and `FindProvider`
six, and a successful `FindBundle` calls `A` once. -/
theorem no_retries_witness :
    KeysNodup threeSources ∧
    (FindBundle slashKey ⟨threeSources⟩ "missing" "alpha" "etcd.v1" CatalogKey.zero).2.length =
      3 ∧
    (FindProvider slashAPI ⟨threeSources⟩ otherAPI).2.length = 6 ∧
    (FindBundle slashKey ⟨threeSources⟩ "etcd" "alpha" "etcd.v1" CatalogKey.zero).2.countP
      (fun call => call.target = keyA) = 1 ∧
    (FindBundle slashKey ⟨threeSources⟩ "missing" "alpha" "etcd.v1" CatalogKey.zero).2.countP
      (fun call => call.target = keyA) ≤ 1 := by
  have hn : KeysNodup threeSources := by unfold KeysNodup threeSources; decide
  exact ⟨hn, by decide, by decide, by decide,
    ((no_retries slashKey slashAPI ⟨threeSources⟩ hn "missing" "alpha" "etcd.v1"
      CatalogKey.zero otherAPI).1 keyA).2.1⟩

/-! ## Mode selection -/

/-- C17. A preferred source whose `Name` is empty or whose `Namespace` is empty is ignored:
each of `FindPackage`, `FindBundle`, `FindLatestBundle` and `FindReplacement` then returns
the result, and issues the calls, of the same call with the zero catalog key, which is the
fan-out over the mapping, whether or not the preferred key is registered. When both `Name`
and `Namespace` are non-empty the call is the targeted lookup of that source. -/
theorem mode_selection {B : Type} (keyString : CatalogKey → String)
    (q : NamespaceSourceQuerier B) (p c n : String) (src : CatalogKey) :
    ((src.Name = "" ∨ src.Namespace = "") →
        FindPackage keyString q p c n src = FindPackage keyString q p c n CatalogKey.zero ∧
        FindBundle keyString q p c n src = FindBundle keyString q p c n CatalogKey.zero ∧
        FindLatestBundle keyString q p c src =
          FindLatestBundle keyString q p c CatalogKey.zero ∧
        FindReplacement q n p c src = FindReplacement q n p c CatalogKey.zero) ∧
      (FindPackage keyString q p c n CatalogKey.zero =
          fanOut (packageRequest p c n)
            (p ++ "/" ++ c ++ " not found in any available CatalogSource") q.sources ∧
        FindBundle keyString q p c n CatalogKey.zero =
          fanOut (.GetBundle p c n)
            (p ++ "/" ++ c ++ "/" ++ n ++ " not found in any available CatalogSource")
            q.sources ∧
        FindLatestBundle keyString q p c CatalogKey.zero =
          fanOut (.GetBundleInPackageChannel p c)
            (p ++ "/" ++ c ++ " not found in any available CatalogSource") q.sources ∧
        FindReplacement q n p c CatalogKey.zero =
          fanOut (.GetReplacementBundleInPackageChannel n p c)
            (p ++ "/" ++ c ++ " not found in any available CatalogSource") q.sources) ∧
      ((src.Name ≠ "" ∧ src.Namespace ≠ "") →
        FindPackage keyString q p c n src =
          targeted (packageRequest p c n) ("CatalogSource " ++ keyString src ++ " not found")
            q.sources src ∧
        FindBundle keyString q p c n src =
          targeted (.GetBundle p c n) ("CatalogSource " ++ keyString src ++ " not found")
            q.sources src ∧
        FindLatestBundle keyString q p c src =
          targeted (.GetBundleInPackageChannel p c)
            ("CatalogSource " ++ keyString src ++ " not found") q.sources src ∧
        FindReplacement q n p c src =
          targeted (.GetReplacementBundleInPackageChannel n p c)
            ("CatalogSource " ++ src.Name ++ " not found") q.sources src) := by
  have hz : ¬ Targets CatalogKey.zero := by simp [Targets, CatalogKey.zero]
  refine ⟨fun h => ?_, ?_, fun h => ?_⟩
  · have hs := not_targets_of_empty src h
    refine ⟨?_, ?_, ?_, ?_⟩
    · rw [FindPackage_eq, FindPackage_eq, if_neg hs, if_neg hz]
    · rw [FindBundle_eq, FindBundle_eq, if_neg hs, if_neg hz]
    · rw [FindLatestBundle_eq, FindLatestBundle_eq, if_neg hs, if_neg hz]
    · rw [FindReplacement_eq, FindReplacement_eq, if_neg hs, if_neg hz]
  · refine ⟨?_, ?_, ?_, ?_⟩
    · rw [FindPackage_eq, if_neg hz]
    · rw [FindBundle_eq, if_neg hz]
    · rw [FindLatestBundle_eq, if_neg hz]
    · rw [FindReplacement_eq, if_neg hz]
  · have hs : Targets src := h
    refine ⟨?_, ?_, ?_, ?_⟩
    · rw [FindPackage_eq, if_pos hs]
    · rw [FindBundle_eq, if_pos hs]
    · rw [FindLatestBundle_eq, if_pos hs]
    · rw [FindReplacement_eq, if_pos hs]

/-- C17, witness: the key `{Name: "A", Namespace: ""}` is registered in
`{B: downSource, {A, ""}: etcdSource}`; given as preferred source it is ignored, and
`FindBundle` calls `B` and then `{A, ""}` exactly as with the zero key. The unregistered key
`{Name: "", Namespace: "ns"}` is ignored in the same way. -/
theorem mode_selection_witness :
    ((⟨"A", ""⟩ : CatalogKey).Name = "" ∨ (⟨"A", ""⟩ : CatalogKey).Namespace = "") ∧
    FindBundle slashKey ⟨[(keyB, downSource), (⟨"A", ""⟩, etcdSource)]⟩
        "etcd" "alpha" "etcd.v1" ⟨"A", ""⟩ =
      FindBundle slashKey ⟨[(keyB, downSource), (⟨"A", ""⟩, etcdSource)]⟩
        "etcd" "alpha" "etcd.v1" CatalogKey.zero ∧
    FindBundle slashKey ⟨[(keyB, downSource), (⟨"A", ""⟩, etcdSource)]⟩
        "etcd" "alpha" "etcd.v1" ⟨"A", ""⟩ =
      (⟨some "etcd.v1", some ⟨"A", ""⟩, none⟩,
        [⟨keyB, .GetBundle "etcd" "alpha" "etcd.v1"⟩,
          ⟨⟨"A", ""⟩, .GetBundle "etcd" "alpha" "etcd.v1"⟩]) ∧
    FindBundle slashKey ⟨[(keyB, downSource), (⟨"A", ""⟩, etcdSource)]⟩
        "etcd" "alpha" "etcd.v1" ⟨"", "ns"⟩ =
      FindBundle slashKey ⟨[(keyB, downSource), (⟨"A", ""⟩, etcdSource)]⟩
        "etcd" "alpha" "etcd.v1" CatalogKey.zero :=
  ⟨by decide,
    ((mode_selection slashKey ⟨[(keyB, downSource), (⟨"A", ""⟩, etcdSource)]⟩
      "etcd" "alpha" "etcd.v1" ⟨"A", ""⟩).1 (by decide)).2.1,
    by decide,
    ((mode_selection slashKey ⟨[(keyB, downSource), (⟨"A", ""⟩, etcdSource)]⟩
      "etcd" "alpha" "etcd.v1" ⟨"", "ns"⟩).1 (by decide)).2.1⟩

end Resolver
